import Mathlib

/-!
# kava `x/committee/client/rest/tx.go`

A shallow embedding of the three REST transaction handlers of the committee
module (`postProposalHandlerFn`, `postVoteHandlerFn`,
`postGovProposalHandlerFn`) together with the tally / governance rules the
specification states for the engine that consumes the handlers' commands.

A handler is a Go closure `func(w http.ResponseWriter, r *http.Request)`.
It is embedded as a pure function from the request to the ordered list of
externally visible steps it performs: the calls it makes to the SDK helpers,
the responses written to `w`, and a panic that ends the run.  The SDK
helpers, which live in other libraries, are parameters, collected in the
structure `SDK`.
-/

namespace Kava

/-! ## Go primitives -/

/-- Go's `http.StatusBadRequest`. -/
def StatusBadRequest : Nat := 400

/-- Go's builtin `len` on a string: its number of bytes. -/
def len (s : String) : Nat := s.utf8ByteSize

/-- Lookup in a Go `map[string]string`, the map given by its entries. -/
def mapLookup (m : List (String × String)) (k : String) : Option String :=
  (m.find? (fun p => p.1 == k)).map Prod.snd

/-- Go's index expression `m[k]` on a `map[string]string`: an absent key
yields the zero value, the empty string. -/
def mapIndex (m : List (String × String)) (k : String) : String :=
  (mapLookup m k).getD ""

/-- Go's `fmt.Sprintf("%s required but not specified", name)`. -/
def requiredButNotSpecified (name : String) : String :=
  name ++ " required but not specified"

/-- The outcome of a call `v.ValidateBasic()` on a value `v` of a Go
interface type: on the nil interface the call panics, on any other value it
returns an `error`, represented by its text, or `nil`, represented by
`none`. -/
inductive CallResult where
  | panics
  | returns (err : Option String)
deriving DecidableEq, Repr

/-- A method call on a value of an interface type. The nil interface is
`none`; on a value `some v` the method of the dynamic value `v` runs. -/
def callValidateBasic {α : Type} (method : α → Option String) : Option α → CallResult
  | none => .panics
  | some v => .returns (method v)

/-! ## Types of the SDK the handlers are generic in -/

/-- The types declared outside `tx.go` that the handlers only pass around. -/
structure Types where
  /-- `context.CLIContext` -/
  CLIContext : Type
  /-- `*codec.Codec`, the field `cliCtx.Codec` -/
  Codec : Type
  /-- the request body, `r.Body` -/
  Body : Type
  /-- `rest.BaseReq` -/
  BaseReq : Type
  /-- `sdk.AccAddress` -/
  AccAddress : Type
  /-- the dynamic values of the interface `types.PubProposal`; a field of
  that interface type is an `Option`, `none` being the nil interface -/
  PubProposal : Type
  /-- the dynamic values of the interface `govtypes.Content`; a field of
  that interface type is an `Option`, `none` being the nil interface -/
  Content : Type
  /-- `sdk.Coins` -/
  Coins : Type
  /-- `govtypes.MsgSubmitProposal` -/
  GovMsgSubmitProposal : Type

/-- One response written to the `http.ResponseWriter`: a status code and a
text, as `rest.WriteErrorResponse(w, status, text)` writes it. -/
structure Response where
  status : Nat
  text : String
deriving DecidableEq, Repr

/-- What `utils.WriteGenerateStdTxResponse` writes to `w`: the generated
transaction, or a response of its own (an error it found in the base request
or while building the transaction). -/
inductive Written where
  | stdTx
  | response (resp : Response)
deriving DecidableEq, Repr

/-- The request `r` as far as the handlers look at it: the route variables
`mux.Vars(r)` and the body. -/
structure Request (T : Types) where
  vars : List (String × String)
  body : T.Body

/-- PostProposalReq defines the properties of a proposal request's body. -/
structure PostProposalReq (T : Types) where
  BaseReq : T.BaseReq
  PubProposal : Option T.PubProposal
  Proposer : T.AccAddress

/-- PostVoteReq defines the properties of a vote request's body. -/
structure PostVoteReq (T : Types) where
  BaseReq : T.BaseReq
  Voter : T.AccAddress

/-- The body of a gov-module request for committee change/delete proposals. -/
structure PostGovProposalReq (T : Types) where
  BaseReq : T.BaseReq
  Content : Option T.Content
  Proposer : T.AccAddress
  Deposit : T.Coins

/-- Modelled from the spec: the declaration of `types.MsgSubmitProposal` is
not in the source slice; the specification gives the command as
`SubmitProposalCommand{committeeId, content, submitter}`. -/
structure MsgSubmitProposal (T : Types) where
  PubProposal : Option T.PubProposal
  Proposer : T.AccAddress
  CommitteeID : Nat

/-- Modelled from the spec: the declaration of `types.MsgVote` is not in the
source slice; the specification gives the command as
`CastVoteCommand{proposalId, voter}`. -/
structure MsgVote (T : Types) where
  ProposalID : Nat
  Voter : T.AccAddress

/-- Modelled from the spec: `types.NewMsgSubmitProposal`, the constructor of
the submit-proposal command, storing its three arguments. -/
def NewMsgSubmitProposal {T : Types} (pubProposal : Option T.PubProposal)
    (proposer : T.AccAddress) (committeeID : Nat) : MsgSubmitProposal T :=
  { PubProposal := pubProposal, Proposer := proposer, CommitteeID := committeeID }

/-- Modelled from the spec: `types.NewMsgVote`, the constructor of the
cast-vote command, storing its two arguments. -/
def NewMsgVote {T : Types} (voter : T.AccAddress) (proposalID : Nat) : MsgVote T :=
  { ProposalID := proposalID, Voter := voter }

/-- The values of the interface `sdk.Msg` that the handlers build. -/
inductive Msg (T : Types) where
  | submitProposal (m : MsgSubmitProposal T)
  | vote (m : MsgVote T)
  | govSubmitProposal (m : T.GovMsgSubmitProposal)

/-- Result of `rest.ParseUint64OrReturnBadRequest(w, s)`: the pair `(n, ok)`
it returns and the responses it wrote to `w`. -/
structure ParseResult where
  n : Nat
  ok : Bool
  written : List Response

/-- Result of `rest.ReadRESTReq(w, r, cdc, &req)`: the request struct after
the call, the returned bool and the responses written to `w`. -/
structure ReadResult (Req : Type) where
  req : Req
  ok : Bool
  written : List Response

/-- Result of `BaseReq.ValidateBasic(w)`: the returned bool and the responses
written to `w`. -/
structure CheckResult where
  ok : Bool
  written : List Response

/-- The constants and library functions `tx.go` uses and does not define.
A Go `error` is represented by its text (`err.Error()`), `nil` by `none`. -/
structure SDK (T : Types) where
  /-- the route variable name `RestCommitteeID` -/
  RestCommitteeID : String
  /-- the route variable name `RestProposalID` -/
  RestProposalID : String
  /-- the field `cliCtx.Codec` -/
  Codec : T.CLIContext → T.Codec
  ParseUint64OrReturnBadRequest : String → ParseResult
  /-- `rest.ReadRESTReq` at `*PostProposalReq` -/
  ReadPostProposalReq : T.Codec → Request T → ReadResult (PostProposalReq T)
  /-- `rest.ReadRESTReq` at `*PostVoteReq` -/
  ReadPostVoteReq : T.Codec → Request T → ReadResult (PostVoteReq T)
  /-- `rest.ReadRESTReq` at `*PostGovProposalReq` -/
  ReadPostGovProposalReq : T.Codec → Request T → ReadResult (PostGovProposalReq T)
  /-- `BaseReq.Sanitize()` -/
  Sanitize : T.BaseReq → T.BaseReq
  /-- `BaseReq.ValidateBasic(w)` -/
  BaseReqValidateBasic : T.BaseReq → CheckResult
  /-- the method `ValidateBasic()` of a dynamic value of `types.PubProposal` -/
  PubProposalValidateBasic : T.PubProposal → Option String
  /-- the method `ValidateBasic()` of a dynamic value of `govtypes.Content` -/
  ContentValidateBasic : T.Content → Option String
  /-- `types.MsgSubmitProposal.ValidateBasic()` -/
  MsgSubmitProposalValidateBasic : MsgSubmitProposal T → Option String
  /-- `types.MsgVote.ValidateBasic()` -/
  MsgVoteValidateBasic : MsgVote T → Option String
  /-- `govtypes.NewMsgSubmitProposal(content, initialDeposit, proposer)` -/
  GovNewMsgSubmitProposal :
    Option T.Content → T.Coins → T.AccAddress → T.GovMsgSubmitProposal
  /-- `govtypes.MsgSubmitProposal.ValidateBasic()` -/
  GovMsgSubmitProposalValidateBasic : T.GovMsgSubmitProposal → Option String
  /-- `utils.WriteGenerateStdTxResponse(w, cliCtx, baseReq, msgs)`: what it
  writes to `w` -/
  WriteGenerateStdTxResponse : T.CLIContext → T.BaseReq → List (Msg T) → List Written

/-- The dynamic dispatch of `msg.ValidateBasic()` on an `sdk.Msg`. -/
def SDK.MsgValidateBasic {T : Types} (sdk : SDK T) : Msg T → Option String
  | .submitProposal m => sdk.MsgSubmitProposalValidateBasic m
  | .vote m => sdk.MsgVoteValidateBasic m
  | .govSubmitProposal m => sdk.GovMsgSubmitProposalValidateBasic m

/-- One externally visible step of a handler run, in program order. -/
inductive Event (T : Types) where
  /-- `rest.ParseUint64OrReturnBadRequest(w, s)` is called -/
  | parseUint64 (s : String)
  /-- `rest.ReadRESTReq(w, r, cdc, &req)` is called: the body is read -/
  | readRESTReq
  /-- `req.BaseReq.ValidateBasic(w)` is called -/
  | baseReqValidateBasic (b : T.BaseReq)
  /-- `req.PubProposal.ValidateBasic()` is called -/
  | pubProposalValidateBasic (p : Option T.PubProposal)
  /-- `req.Content.ValidateBasic()` is called -/
  | contentValidateBasic (c : Option T.Content)
  /-- a message is constructed (`NewMsgSubmitProposal`, `NewMsgVote`) -/
  | newMsg (m : Msg T)
  /-- `msg.ValidateBasic()` is called -/
  | msgValidateBasic (m : Msg T)
  /-- a response that is no generated transaction is written to `w` -/
  | errorResponse (resp : Response)
  /-- `utils.WriteGenerateStdTxResponse(w, cliCtx, baseReq, msgs)` is called -/
  | generateStdTx (cliCtx : T.CLIContext) (baseReq : T.BaseReq) (msgs : List (Msg T))
  /-- the transaction generated from `msgs` is written to `w` -/
  | stdTxResponse (msgs : List (Msg T))
  /-- the goroutine panics (a method call on a nil interface): the handler
  run ends here, with nothing further written by it -/
  | panic

/-- `rest.WriteErrorResponse(w, status, text)`. -/
def WriteErrorResponse {T : Types} (status : Nat) (text : String) : Event T :=
  .errorResponse { status := status, text := text }

/-- The responses a helper wrote to `w`, as events. -/
def written {T : Types} (rs : List Response) : List (Event T) :=
  rs.map Event.errorResponse

/-- What `utils.WriteGenerateStdTxResponse` wrote for `msgs`, as events. -/
def txWritten {T : Types} (ws : List Written) (msgs : List (Msg T)) : List (Event T) :=
  ws.map (fun w =>
    match w with
    | .stdTx => Event.stdTxResponse msgs
    | .response resp => Event.errorResponse resp)

/-! ## The handlers -/

/-- The closure returned by `postProposalHandlerFn(cliCtx)`, run on `r`. -/
def postProposalHandlerFn {T : Types} (sdk : SDK T) (cliCtx : T.CLIContext)
    (r : Request T) : List (Event T) :=
  -- Parse and validate url params
  let vars := r.vars
  if len (mapIndex vars sdk.RestCommitteeID) = 0 then
    [WriteErrorResponse StatusBadRequest (requiredButNotSpecified sdk.RestCommitteeID)]
  else
    let parsed := sdk.ParseUint64OrReturnBadRequest (mapIndex vars sdk.RestCommitteeID)
    let committeeID := parsed.n
    Event.parseUint64 (mapIndex vars sdk.RestCommitteeID) :: written parsed.written ++
    if !parsed.ok then [] else
    -- Parse and validate http request body
    let read := sdk.ReadPostProposalReq (sdk.Codec cliCtx) r
    Event.readRESTReq :: written read.written ++
    if !read.ok then [] else
    let req : PostProposalReq T := { read.req with BaseReq := sdk.Sanitize read.req.BaseReq }
    let valid := sdk.BaseReqValidateBasic req.BaseReq
    Event.baseReqValidateBasic req.BaseReq :: written valid.written ++
    if !valid.ok then [] else
    Event.pubProposalValidateBasic req.PubProposal ::
    match callValidateBasic sdk.PubProposalValidateBasic req.PubProposal with
    | .panics => [Event.panic]
    | .returns (some err) => [WriteErrorResponse StatusBadRequest err]
    | .returns none =>
      -- Create and return a StdTx
      let msg := Msg.submitProposal (NewMsgSubmitProposal req.PubProposal req.Proposer committeeID)
      Event.newMsg msg :: Event.msgValidateBasic msg ::
      match sdk.MsgValidateBasic msg with
      | some err => [WriteErrorResponse StatusBadRequest err]
      | none =>
        Event.generateStdTx cliCtx req.BaseReq [msg] ::
        txWritten (sdk.WriteGenerateStdTxResponse cliCtx req.BaseReq [msg]) [msg]

/-- The closure returned by `postVoteHandlerFn(cliCtx)`, run on `r`. -/
def postVoteHandlerFn {T : Types} (sdk : SDK T) (cliCtx : T.CLIContext)
    (r : Request T) : List (Event T) :=
  -- Parse and validate url params
  let vars := r.vars
  if len (mapIndex vars sdk.RestProposalID) = 0 then
    [WriteErrorResponse StatusBadRequest (requiredButNotSpecified sdk.RestProposalID)]
  else
    let parsed := sdk.ParseUint64OrReturnBadRequest (mapIndex vars sdk.RestProposalID)
    let proposalID := parsed.n
    Event.parseUint64 (mapIndex vars sdk.RestProposalID) :: written parsed.written ++
    if !parsed.ok then [] else
    -- Parse and validate http request body
    let read := sdk.ReadPostVoteReq (sdk.Codec cliCtx) r
    Event.readRESTReq :: written read.written ++
    if !read.ok then [] else
    let req : PostVoteReq T := { read.req with BaseReq := sdk.Sanitize read.req.BaseReq }
    let valid := sdk.BaseReqValidateBasic req.BaseReq
    Event.baseReqValidateBasic req.BaseReq :: written valid.written ++
    if !valid.ok then [] else
    -- Create and return a StdTx
    let msg := Msg.vote (NewMsgVote req.Voter proposalID)
    Event.newMsg msg :: Event.msgValidateBasic msg ::
    match sdk.MsgValidateBasic msg with
    | some err => [WriteErrorResponse StatusBadRequest err]
    | none =>
      Event.generateStdTx cliCtx req.BaseReq [msg] ::
      txWritten (sdk.WriteGenerateStdTxResponse cliCtx req.BaseReq [msg]) [msg]

/-- The closure returned by `postGovProposalHandlerFn(cliCtx)`, run on `r`. -/
def postGovProposalHandlerFn {T : Types} (sdk : SDK T) (cliCtx : T.CLIContext)
    (r : Request T) : List (Event T) :=
  -- Parse and validate http request body
  let read := sdk.ReadPostGovProposalReq (sdk.Codec cliCtx) r
  Event.readRESTReq :: written read.written ++
  if !read.ok then [] else
  let req : PostGovProposalReq T := { read.req with BaseReq := sdk.Sanitize read.req.BaseReq }
  let valid := sdk.BaseReqValidateBasic req.BaseReq
  Event.baseReqValidateBasic req.BaseReq :: written valid.written ++
  if !valid.ok then [] else
  Event.contentValidateBasic req.Content ::
  match callValidateBasic sdk.ContentValidateBasic req.Content with
  | .panics => [Event.panic]
  | .returns (some err) => [WriteErrorResponse StatusBadRequest err]
  | .returns none =>
    -- Create and return a StdTx
    let msg := Msg.govSubmitProposal (sdk.GovNewMsgSubmitProposal req.Content req.Deposit req.Proposer)
    Event.newMsg msg :: Event.msgValidateBasic msg ::
    match sdk.MsgValidateBasic msg with
    | some err => [WriteErrorResponse StatusBadRequest err]
    | none =>
      Event.generateStdTx cliCtx req.BaseReq [msg] ::
      txWritten (sdk.WriteGenerateStdTxResponse cliCtx req.BaseReq [msg]) [msg]

/-! ## Observations on a handler run -/

/-- The transactions whose generation was started in a run: the base request
and message list of each call of `utils.WriteGenerateStdTxResponse`. -/
def generated {T : Types} : List (Event T) → List (T.BaseReq × List (Msg T))
  | [] => []
  | .generateStdTx _ b msgs :: es => (b, msgs) :: generated es
  | _ :: es => generated es

/-- Every response written to `w` in a run, in order. -/
def responses {T : Types} : List (Event T) → List Written
  | [] => []
  | .errorResponse resp :: es => .response resp :: responses es
  | .stdTxResponse _ :: es => .stdTx :: responses es
  | _ :: es => responses es

/-- The messages constructed in a run. -/
def constructed {T : Types} : List (Event T) → List (Msg T)
  | [] => []
  | .newMsg m :: es => m :: constructed es
  | _ :: es => constructed es

/-- The messages on which `ValidateBasic()` was called in a run. -/
def validated {T : Types} : List (Event T) → List (Msg T)
  | [] => []
  | .msgValidateBasic m :: es => m :: validated es
  | _ :: es => validated es

/-- The number of times the request body was read in a run. -/
def bodyReads {T : Types} : List (Event T) → Nat
  | [] => 0
  | .readRESTReq :: es => bodyReads es + 1
  | _ :: es => bodyReads es

/-- The number of responses of either kind (generated transaction or other
response) written in a run. -/
def responseCount {T : Types} (es : List (Event T)) : Nat :=
  (responses es).length

/-- The assumption on the SDK helpers that report failure through a bool:
each writes exactly one error response when it returns false and none when
it returns true. -/
structure SDK.WellBehaved {T : Types} (sdk : SDK T) : Prop where
  parse : ∀ s, (sdk.ParseUint64OrReturnBadRequest s).written.length =
    if (sdk.ParseUint64OrReturnBadRequest s).ok then 0 else 1
  readProposal : ∀ cdc r, (sdk.ReadPostProposalReq cdc r).written.length =
    if (sdk.ReadPostProposalReq cdc r).ok then 0 else 1
  readVote : ∀ cdc r, (sdk.ReadPostVoteReq cdc r).written.length =
    if (sdk.ReadPostVoteReq cdc r).ok then 0 else 1
  readGov : ∀ cdc r, (sdk.ReadPostGovProposalReq cdc r).written.length =
    if (sdk.ReadPostGovProposalReq cdc r).ok then 0 else 1
  baseReq : ∀ b, (sdk.BaseReqValidateBasic b).written.length =
    if (sdk.BaseReqValidateBasic b).ok then 0 else 1

/-- The assumption that `utils.WriteGenerateStdTxResponse` writes exactly
one response, the generated transaction or a response of its own. -/
def SDK.GenerateAnswersOnce {T : Types} (sdk : SDK T) : Prop :=
  ∀ cliCtx baseReq msgs, (sdk.WriteGenerateStdTxResponse cliCtx baseReq msgs).length = 1

/-! ## The order of the checks, as a decision list -/

/-- The outcome of a list of checks run in order, each `none` when it passes
and `some ws` when it fails after writing the responses `ws`: the responses
of the first check that fails, `none` when every check passes. -/
def firstFailingCheck : List (Option (List Response)) → Option (List Response)
  | [] => none
  | some ws :: _ => some ws
  | none :: rest => firstFailingCheck rest

/-- The check of a route variable: it must be non-empty and parse. -/
def urlVariableCheck {T : Types} (sdk : SDK T) (r : Request T) (name : String) :
    Option (List Response) :=
  if len (mapIndex r.vars name) = 0 then
    some [{ status := StatusBadRequest, text := requiredButNotSpecified name }]
  else if (sdk.ParseUint64OrReturnBadRequest (mapIndex r.vars name)).ok then none
  else some (sdk.ParseUint64OrReturnBadRequest (mapIndex r.vars name)).written

/-- The check a helper reporting through a bool makes. -/
def boolCheck (ok : Bool) (ws : List Response) : Option (List Response) :=
  if ok then none else some ws

/-- The check a `ValidateBasic()` returning an `error` makes: on an error the
handler writes a 400 response with the error's text. -/
def errorCheck (err : Option String) : Option (List Response) :=
  err.map (fun e => [{ status := StatusBadRequest, text := e }])

/-- The check a `ValidateBasic()` call on an interface value makes: when the
call panics the run stops with nothing written; when it returns, the check
is that of the returned `error`. -/
def interfaceCheck : CallResult → Option (List Response)
  | .panics => some []
  | .returns err => errorCheck err

/-- The base request `postProposalHandlerFn` passes on, sanitized. -/
def postProposalBaseReq {T : Types} (sdk : SDK T) (cliCtx : T.CLIContext) (r : Request T) :
    T.BaseReq :=
  sdk.Sanitize (sdk.ReadPostProposalReq (sdk.Codec cliCtx) r).req.BaseReq

/-- The message `postProposalHandlerFn` builds. -/
def postProposalMsg {T : Types} (sdk : SDK T) (cliCtx : T.CLIContext) (r : Request T) : Msg T :=
  Msg.submitProposal (NewMsgSubmitProposal
    (sdk.ReadPostProposalReq (sdk.Codec cliCtx) r).req.PubProposal
    (sdk.ReadPostProposalReq (sdk.Codec cliCtx) r).req.Proposer
    (sdk.ParseUint64OrReturnBadRequest (mapIndex r.vars sdk.RestCommitteeID)).n)

/-- The checks of `postProposalHandlerFn`, in the order URL variable, body
parse, base request, content, message. -/
def postProposalChecks {T : Types} (sdk : SDK T) (cliCtx : T.CLIContext) (r : Request T) :
    List (Option (List Response)) :=
  [ urlVariableCheck sdk r sdk.RestCommitteeID,
    boolCheck (sdk.ReadPostProposalReq (sdk.Codec cliCtx) r).ok
      (sdk.ReadPostProposalReq (sdk.Codec cliCtx) r).written,
    boolCheck (sdk.BaseReqValidateBasic (postProposalBaseReq sdk cliCtx r)).ok
      (sdk.BaseReqValidateBasic (postProposalBaseReq sdk cliCtx r)).written,
    interfaceCheck (callValidateBasic sdk.PubProposalValidateBasic
      (sdk.ReadPostProposalReq (sdk.Codec cliCtx) r).req.PubProposal),
    errorCheck (sdk.MsgValidateBasic (postProposalMsg sdk cliCtx r)) ]

/-- The base request `postVoteHandlerFn` passes on, sanitized. -/
def postVoteBaseReq {T : Types} (sdk : SDK T) (cliCtx : T.CLIContext) (r : Request T) :
    T.BaseReq :=
  sdk.Sanitize (sdk.ReadPostVoteReq (sdk.Codec cliCtx) r).req.BaseReq

/-- The message `postVoteHandlerFn` builds. -/
def postVoteMsg {T : Types} (sdk : SDK T) (cliCtx : T.CLIContext) (r : Request T) : Msg T :=
  Msg.vote (NewMsgVote (sdk.ReadPostVoteReq (sdk.Codec cliCtx) r).req.Voter
    (sdk.ParseUint64OrReturnBadRequest (mapIndex r.vars sdk.RestProposalID)).n)

/-- The checks of `postVoteHandlerFn`, in the order URL variable, body parse,
base request, message. -/
def postVoteChecks {T : Types} (sdk : SDK T) (cliCtx : T.CLIContext) (r : Request T) :
    List (Option (List Response)) :=
  [ urlVariableCheck sdk r sdk.RestProposalID,
    boolCheck (sdk.ReadPostVoteReq (sdk.Codec cliCtx) r).ok
      (sdk.ReadPostVoteReq (sdk.Codec cliCtx) r).written,
    boolCheck (sdk.BaseReqValidateBasic (postVoteBaseReq sdk cliCtx r)).ok
      (sdk.BaseReqValidateBasic (postVoteBaseReq sdk cliCtx r)).written,
    errorCheck (sdk.MsgValidateBasic (postVoteMsg sdk cliCtx r)) ]

/-- The base request `postGovProposalHandlerFn` passes on, sanitized. -/
def postGovProposalBaseReq {T : Types} (sdk : SDK T) (cliCtx : T.CLIContext) (r : Request T) :
    T.BaseReq :=
  sdk.Sanitize (sdk.ReadPostGovProposalReq (sdk.Codec cliCtx) r).req.BaseReq

/-- The message `postGovProposalHandlerFn` builds. -/
def postGovProposalMsg {T : Types} (sdk : SDK T) (cliCtx : T.CLIContext) (r : Request T) :
    Msg T :=
  Msg.govSubmitProposal (sdk.GovNewMsgSubmitProposal
    (sdk.ReadPostGovProposalReq (sdk.Codec cliCtx) r).req.Content
    (sdk.ReadPostGovProposalReq (sdk.Codec cliCtx) r).req.Deposit
    (sdk.ReadPostGovProposalReq (sdk.Codec cliCtx) r).req.Proposer)

/-- The checks of `postGovProposalHandlerFn`, in the order body parse, base
request, content, message. -/
def postGovProposalChecks {T : Types} (sdk : SDK T) (cliCtx : T.CLIContext) (r : Request T) :
    List (Option (List Response)) :=
  [ boolCheck (sdk.ReadPostGovProposalReq (sdk.Codec cliCtx) r).ok
      (sdk.ReadPostGovProposalReq (sdk.Codec cliCtx) r).written,
    boolCheck (sdk.BaseReqValidateBasic (postGovProposalBaseReq sdk cliCtx r)).ok
      (sdk.BaseReqValidateBasic (postGovProposalBaseReq sdk cliCtx r)).written,
    interfaceCheck (callValidateBasic sdk.ContentValidateBasic
      (sdk.ReadPostGovProposalReq (sdk.Codec cliCtx) r).req.Content),
    errorCheck (sdk.MsgValidateBasic (postGovProposalMsg sdk cliCtx r)) ]

/-- Whether an event writes a response to `w`. -/
def Event.isResponse {T : Types} : Event T → Bool
  | .errorResponse _ => true
  | .stdTxResponse _ => true
  | _ => false

/-- A run answers the request exactly once: it writes one response in all,
as its last step; when some check of the list fails, that response is the
single error response of the first failing check and
`WriteGenerateStdTxResponse` is not called; when every check passes,
`WriteGenerateStdTxResponse` is called once, on `tx`, and the response is
the one it writes, `out`. -/
def AnswersExactlyOnce {T : Types} (run : List (Event T))
    (checks : List (Option (List Response))) (tx : T.BaseReq × List (Msg T))
    (out : List Written) : Prop :=
  responseCount run = 1 ∧
  (∃ e, run.getLast? = some e ∧ e.isResponse = true) ∧
  match firstFailingCheck checks with
  | some ws => responses run = ws.map Written.response ∧ ws.length = 1 ∧ generated run = []
  | none => responses run = out ∧ out.length = 1 ∧ generated run = [tx]

/-! ## A concrete SDK for worked examples -/

/-- A base request reduced to its chain id and its gas setting. -/
structure ExampleBaseReq where
  ChainID : String
  Gas : String
deriving DecidableEq, Repr

/-- Concrete carrier types: addresses, proposals, contents and coins are
strings, the body a decoded flat JSON object. -/
abbrev exampleTypes : Types where
  CLIContext := Unit
  Codec := Unit
  Body := List (String × String)
  BaseReq := ExampleBaseReq
  AccAddress := String
  PubProposal := String
  Content := String
  Coins := String
  GovMsgSubmitProposal := Option String × String × String

/-- Value of a string of decimal digits, `none` if a character is no digit. -/
def decimalValue : List Char → Option Nat
  | [] => some 0
  | cs => cs.foldl (fun acc c =>
      match acc with
      | some n => if c.isDigit then some (10 * n + (c.toNat - 48)) else none
      | none => none) (some 0)

/-- A decimal parser with the contract of `ParseUint64OrReturnBadRequest`. -/
def exampleParseUint64 (s : String) : ParseResult :=
  match decimalValue s.data with
  | some n =>
    if s ≠ "" ∧ n < 2 ^ 64 then { n := n, ok := true, written := [] }
    else { n := 0, ok := false,
           written := [{ status := 400, text := s ++ " is not a valid uint64" }] }
  | none => { n := 0, ok := false,
              written := [{ status := 400, text := s ++ " is not a valid uint64" }] }

/-- Removal of the blanks of a string. -/
def stripBlanks (s : String) : String :=
  String.mk (s.data.filter (fun c => c != ' '))

/-- The base request a body decodes to. -/
def exampleBaseReqOf (body : List (String × String)) : ExampleBaseReq :=
  { ChainID := mapIndex body "chain_id", Gas := mapIndex body "gas" }

/-- The response to a body that is no JSON object. -/
def exampleBodyError (body : List (String × String)) : List Response :=
  if body.isEmpty then [{ status := 400, text := "invalid request body" }] else []

/-- A concrete SDK. Bodies are decoded field by field: an absent string
field is the empty string, an absent interface field the nil interface, an
empty body is malformed. A base request needs a chain id, a proposal or
content a title, a message a sender and non-nil valid content; the
transaction is generated unless the gas setting is no number. -/
def exampleSDK : SDK exampleTypes where
  RestCommitteeID := "committee-id"
  RestProposalID := "proposal-id"
  Codec := fun _ => ()
  ParseUint64OrReturnBadRequest := exampleParseUint64
  ReadPostProposalReq := fun _ r =>
    { req := { BaseReq := exampleBaseReqOf r.body,
               PubProposal := mapLookup r.body "pub_proposal",
               Proposer := mapIndex r.body "proposer" },
      ok := !r.body.isEmpty,
      written := exampleBodyError r.body }
  ReadPostVoteReq := fun _ r =>
    { req := { BaseReq := exampleBaseReqOf r.body, Voter := mapIndex r.body "voter" },
      ok := !r.body.isEmpty,
      written := exampleBodyError r.body }
  ReadPostGovProposalReq := fun _ r =>
    { req := { BaseReq := exampleBaseReqOf r.body, Content := mapLookup r.body "content",
               Proposer := mapIndex r.body "proposer", Deposit := mapIndex r.body "deposit" },
      ok := !r.body.isEmpty,
      written := exampleBodyError r.body }
  Sanitize := fun b => { ChainID := stripBlanks b.ChainID, Gas := stripBlanks b.Gas }
  BaseReqValidateBasic := fun b =>
    { ok := b.ChainID != "",
      written :=
        if b.ChainID = "" then [{ status := 401, text := "chain-id required but not specified" }]
        else [] }
  PubProposalValidateBasic := fun p => if p = "" then some "proposal title cannot be blank" else none
  ContentValidateBasic := fun c => if c = "" then some "proposal title cannot be blank" else none
  MsgSubmitProposalValidateBasic := fun m =>
    match m.PubProposal with
    | none => some "pub proposal cannot be nil"
    | some p =>
      if m.Proposer = "" then some "proposer address cannot be empty"
      else if p = "" then some "proposal title cannot be blank" else none
  MsgVoteValidateBasic := fun m =>
    if m.Voter = "" then some "voter address cannot be empty" else none
  GovNewMsgSubmitProposal := fun c d p => (c, d, p)
  GovMsgSubmitProposalValidateBasic := fun m =>
    if m.2.2 = "" then some "proposer address cannot be empty"
    else if m.2.1 = "" then some "invalid deposit" else none
  WriteGenerateStdTxResponse := fun _ b _ =>
    match decimalValue b.Gas.data with
    | some _ => [Written.stdTx]
    | none => [Written.response { status := 400, text := "invalid gas: " ++ b.Gas }]

/-- The sanitized base request of the example requests on chain `kava 5`. -/
def exampleBaseReq : ExampleBaseReq := { ChainID := "kava5", Gas := "" }

/-- A well-formed proposal request for committee 12. -/
def exampleProposalRequest : Request exampleTypes :=
  { vars := [("committee-id", "12")],
    body := [("chain_id", "kava 5"), ("pub_proposal", "raise debt limit"), ("proposer", "kava1abc")] }

/-- The message the handler builds from `exampleProposalRequest`. -/
def exampleSubmitProposal : MsgSubmitProposal exampleTypes :=
  { PubProposal := some "raise debt limit", Proposer := "kava1abc", CommitteeID := 12 }

/-- A proposal request for committee 12 whose proposal has a blank title. -/
def exampleBlankProposalRequest : Request exampleTypes :=
  { vars := [("committee-id", "12")],
    body := [("chain_id", "kava 5"), ("pub_proposal", ""), ("proposer", "kava1abc")] }

/-- A proposal request for committee 12 whose body has no `pub_proposal`
field: the decoded `req.PubProposal` is the nil interface. -/
def exampleNilProposalRequest : Request exampleTypes :=
  { vars := [("committee-id", "12")],
    body := [("chain_id", "kava 5"), ("proposer", "kava1abc")] }

/-- A proposal request for committee 12 that names no proposer. -/
def exampleNoProposerRequest : Request exampleTypes :=
  { vars := [("committee-id", "12")],
    body := [("chain_id", "kava 5"), ("pub_proposal", "raise debt limit")] }

/-- The message the handler builds from `exampleNoProposerRequest`. -/
def exampleNoProposerMsg : Msg exampleTypes :=
  Msg.submitProposal
    { PubProposal := some "raise debt limit", Proposer := "", CommitteeID := 12 }

/-- A proposal request for committee 12 that passes every check of the
handler and whose base request has a gas setting that is no number. -/
def exampleBadGasRequest : Request exampleTypes :=
  { vars := [("committee-id", "12")],
    body := [("chain_id", "kava 5"), ("gas", "abc"), ("pub_proposal", "raise debt limit"),
             ("proposer", "kava1abc")] }

/-- A well-formed vote request on proposal 7. -/
def exampleVoteRequest : Request exampleTypes :=
  { vars := [("proposal-id", "7")],
    body := [("chain_id", "kava 5"), ("voter", "kava1abc")] }

/-- A well-formed gov proposal request. -/
def exampleGovRequest : Request exampleTypes :=
  { vars := [],
    body := [("chain_id", "kava 5"), ("content", "delete committee 3"),
             ("proposer", "kava1abc"), ("deposit", "10ukava")] }

/-- The message the handler builds from `exampleVoteRequest`. -/
def exampleVote : MsgVote exampleTypes :=
  { ProposalID := 7, Voter := "kava1abc" }

/-- A vote request on proposal 7 by the same voter, from another chain. -/
def exampleSecondVoteRequest : Request exampleTypes :=
  { vars := [("proposal-id", "7"), ("unused", "x")],
    body := [("voter", "kava1abc"), ("chain_id", "testnet")] }

/-- The sanitized base request of `exampleSecondVoteRequest`. -/
def exampleTestnetBaseReq : ExampleBaseReq := { ChainID := "testnet", Gas := "" }

/-- A vote request on proposal 7 whose body names no voter. -/
def exampleNoVoterRequest : Request exampleTypes :=
  { vars := [("proposal-id", "7")],
    body := [("chain_id", "kava 5")] }

/-- The message the handler builds from `exampleNoVoterRequest`. -/
def exampleNoVoterMsg : Msg exampleTypes :=
  Msg.vote { ProposalID := 7, Voter := "" }

/-- A well-formed proposal request naming committee 0. -/
def exampleZeroCommitteeRequest : Request exampleTypes :=
  { vars := [("committee-id", "0")],
    body := [("chain_id", "kava 5"), ("pub_proposal", "raise debt limit"), ("proposer", "kava1abc")] }

/-- The message the handler builds from `exampleZeroCommitteeRequest`. -/
def exampleZeroCommitteeProposal : MsgSubmitProposal exampleTypes :=
  { PubProposal := some "raise debt limit", Proposer := "kava1abc", CommitteeID := 0 }

/-- A request with a well-formed body and no route variable. -/
def exampleNoVariableRequest : Request exampleTypes :=
  { vars := [],
    body := [("chain_id", "kava 5"), ("pub_proposal", "raise debt limit"),
             ("proposer", "kava1abc"), ("voter", "kava1abc")] }

/-- A request with a well-formed body and a route variable that is no number. -/
def exampleBadVariableRequest : Request exampleTypes :=
  { vars := [("committee-id", "twelve"), ("proposal-id", "-7")],
    body := [("chain_id", "kava 5"), ("pub_proposal", "raise debt limit"),
             ("proposer", "kava1abc"), ("voter", "kava1abc")] }

/-- A gov proposal request whose content has a blank title. -/
def exampleBlankContentGovRequest : Request exampleTypes :=
  { vars := [],
    body := [("chain_id", "kava 5"), ("content", ""), ("proposer", "kava1abc"),
             ("deposit", "10ukava")] }

/-- A gov proposal request whose body has no `content` field: the decoded
`req.Content` is the nil interface. -/
def exampleNilContentGovRequest : Request exampleTypes :=
  { vars := [],
    body := [("chain_id", "kava 5"), ("proposer", "kava1abc"), ("deposit", "10ukava")] }

/-- A gov proposal request that names no proposer. -/
def exampleNoProposerGovRequest : Request exampleTypes :=
  { vars := [],
    body := [("chain_id", "kava 5"), ("content", "delete committee 3"), ("deposit", "10ukava")] }

/-- The message the handler builds from `exampleNoProposerGovRequest`. -/
def exampleNoProposerGovMsg : Msg exampleTypes :=
  Msg.govSubmitProposal (some "delete committee 3", "10ukava", "")

/-! ## The governance engine the commands are handed to

The engine is not part of the source slice; the definitions of this section
follow sections 3, 4.3, 4.4 and 4.5 of the specification. -/

namespace Engine

/-- Modelled from the spec: a member identity (address); the engine's source
is missing from the slice. -/
abbrev Identity := String

/-- Modelled from the spec: the opaque typed payload of a proposal; the
engine's source is missing from the slice. -/
abbrev Content := String

/-- Modelled from the spec: `tallyRule`, one of `{SimpleMajority,
EveryoneMustAgree}` (section 3); the engine's source is missing. -/
inductive TallyRule where
  | SimpleMajority
  | EveryoneMustAgree
deriving DecidableEq, Repr

/-- Modelled from the spec: `status`, one of `{Pending, Passed, Failed}`
(section 3); the engine's source is missing. -/
inductive Status where
  | Pending
  | Passed
  | Failed
deriving DecidableEq, Repr

/-- Modelled from the spec: the error kinds of section 7; the engine's source
is missing. -/
inductive EngineError where
  | CommitteeNotFound
  | ProposalNotFound
  | Unauthorized
  | InvalidContent
  | PermissionDenied
  | ProposalClosed
  | VotingPeriodExpired
  | InvalidState
deriving DecidableEq, Repr

/-- Modelled from the spec: the Committee record of section 3 (id, members,
permission predicates, tally rule, voting period); the engine's source is
missing. -/
structure Committee where
  id : Nat
  members : List Identity
  permissions : List (Content → Bool)
  tallyRule : TallyRule
  votingPeriod : Nat

/-- Modelled from the spec: the Proposal record of section 3, holding the
committee snapshot taken at submission; the engine's source is missing. -/
structure Proposal where
  id : Nat
  committeeSnapshot : Committee
  content : Content
  submitter : Identity
  submitTime : Nat
  deadline : Nat
  status : Status

/-- Modelled from the spec: the persisted state of section 6, a proposals
table keyed by id and a votes table keyed by `(proposalId, voter)`, with the
counter that assigns fresh ids; the engine's source is missing. -/
structure Store where
  proposals : Nat → Option Proposal
  votes : List (Nat × Identity)
  nextId : Nat

/-- Modelled from the spec: the Tally Engine contract of section 4.4,
`Evaluate(committeeSnapshot, voteCount)`. `SimpleMajority` is Passed once
`voteCount > len(members)/2` (integer floor division), `EveryoneMustAgree`
once `voteCount == len(members)`; otherwise the proposal stays Pending, and
Failed is assigned only at the deadline, by the sweep. -/
def Evaluate (committeeSnapshot : Committee) (voteCount : Nat) : Status :=
  match committeeSnapshot.tallyRule with
  | .SimpleMajority =>
    if voteCount > committeeSnapshot.members.length / 2 then .Passed else .Pending
  | .EveryoneMustAgree =>
    if voteCount = committeeSnapshot.members.length then .Passed else .Pending

/-- Modelled from the spec: the number of votes recorded for a proposal, the
rows of the votes table with that proposal id; the engine's source is
missing. -/
def voteCount (s : Store) (proposalId : Nat) : Nat :=
  (s.votes.filter (fun v => v.1 = proposalId)).length

/-- Modelled from the spec: `Create(committeeSnapshot, content, submitter,
now)` of section 4.3: a Pending proposal under a fresh id, with deadline
`submitTime + votingPeriod`; the engine's source is missing. -/
def Create (s : Store) (committeeSnapshot : Committee) (content : Content)
    (submitter : Identity) (now : Nat) : Store × Proposal :=
  let p : Proposal :=
    { id := s.nextId, committeeSnapshot := committeeSnapshot, content := content,
      submitter := submitter, submitTime := now,
      deadline := now + committeeSnapshot.votingPeriod, status := .Pending }
  ({ s with proposals := Function.update s.proposals s.nextId (some p),
            nextId := s.nextId + 1 }, p)

/-- Modelled from the spec: `RecordVote(proposalId, voter, now)` of section
4.3: NotFound if the proposal is absent or terminal, Unauthorized if the
voter is no member of the snapshot; a vote of the same voter overwrites the
earlier one; the engine's source is missing. -/
def RecordVote (s : Store) (proposalId : Nat) (voter : Identity) (_now : Nat) :
    Except EngineError Store :=
  match s.proposals proposalId with
  | none => .error .ProposalNotFound
  | some p =>
    if p.status ≠ .Pending then .error .ProposalNotFound
    else if voter ∉ p.committeeSnapshot.members then .error .Unauthorized
    else
      let others := s.votes.filter (fun v => ¬ (v.1 = proposalId ∧ v.2 = voter))
      .ok { s with votes := others ++ [(proposalId, voter)] }

/-- Modelled from the spec: `ListPending()` of section 4.3, the Pending
proposals in insertion order (lower id first); the engine's source is
missing. -/
def ListPending (s : Store) : List (Nat × Proposal) :=
  (List.range s.nextId).filterMap (fun i =>
    match s.proposals i with
    | some p => if p.status = .Pending then some (i, p) else none
    | none => none)

/-- Modelled from the spec: `Finalize(proposalId, status)` of section 4.3:
the transition Pending to Passed or Failed, InvalidState if the proposal is
not Pending; the engine's source is missing. -/
def Finalize (s : Store) (proposalId : Nat) (status : Status) : Except EngineError Store :=
  match s.proposals proposalId with
  | none => .error .InvalidState
  | some p =>
    if p.status = .Pending then
      .ok { s with proposals :=
        Function.update s.proposals proposalId (some { p with status := status }) }
    else .error .InvalidState

/-- Modelled from the spec: `CastVote(proposalId, voter, now)` of section 4.5.
The result is the new store and the list of proposal ids for which the
execution callback was invoked during the call; the engine's source is
missing. -/
def CastVote (s : Store) (proposalId : Nat) (voter : Identity) (now : Nat) :
    Except EngineError (Store × List Nat) :=
  match s.proposals proposalId with
  | none => .error .ProposalNotFound
  | some p =>
    if p.status ≠ .Pending then .error .ProposalClosed
    else if now > p.deadline then .error .VotingPeriodExpired
    else
      match RecordVote s proposalId voter now with
      | .error e => .error e
      | .ok s1 =>
        match Evaluate p.committeeSnapshot (voteCount s1 proposalId) with
        | .Passed =>
          match Finalize s1 proposalId .Passed with
          | .error e => .error e
          | .ok s2 => .ok (s2, [proposalId])
        | _ => .ok (s1, [])

/-- Modelled from the spec: the treatment of one pending proposal by the
sweep of section 4.5: past its deadline it is finalized as Passed, with one
invocation of the execution callback, or as Failed, with none; a proposal
that is no longer Pending is skipped; the engine's source is missing. -/
def sweepOne (now : Nat) (acc : Store × List Nat) (entry : Nat × Proposal) :
    Store × List Nat :=
  if entry.2.deadline ≤ now then
    match Evaluate entry.2.committeeSnapshot (voteCount acc.1 entry.1) with
    | .Passed =>
      match Finalize acc.1 entry.1 .Passed with
      | .ok s1 => (s1, acc.2 ++ [entry.1])
      | .error _ => acc
    | _ =>
      match Finalize acc.1 entry.1 .Failed with
      | .ok s1 => (s1, acc.2)
      | .error _ => acc
  else acc

/-- Modelled from the spec: `Sweep(now)` of section 4.5, over `ListPending()`
in order. The result is the new store and the proposal ids for which the
execution callback was invoked; the engine's source is missing. -/
def Sweep (s : Store) (now : Nat) : Store × List Nat :=
  (ListPending s).foldl (sweepOne now) (s, [])

/-- Modelled from the spec: one call into the engine, `CastVote` or `Sweep`
(section 4.5); the engine's source is missing. -/
inductive Call where
  | CastVote (proposalId : Nat) (voter : Identity) (now : Nat)
  | Sweep (now : Nat)
deriving DecidableEq, Repr

/-- Modelled from the spec: the effect of one call on the store, with the
callback invocations it made; a call that fails with an error changes
nothing and invokes nothing; the engine's source is missing. -/
def step (s : Store) : Call → Store × List Nat
  | .CastVote proposalId voter now =>
    match CastVote s proposalId voter now with
    | .ok res => res
    | .error _ => (s, [])
  | .Sweep now => Sweep s now

/-- Modelled from the spec: a finite sequence of calls, run in order; the
result is the final store and every callback invocation, in order; the
engine's source is missing. -/
def run (s : Store) : List Call → Store × List Nat
  | [] => (s, [])
  | c :: cs =>
    let r1 := step s c
    let r2 := run r1.1 cs
    (r2.1, r1.2 ++ r2.2)

/-- The empty store, whose first proposal gets id 1. -/
def emptyStore : Store := { proposals := fun _ => none, votes := [], nextId := 1 }

/-- The committee of the scenarios of section 8 of the specification. -/
def scenarioCommittee (rule : TallyRule) : Committee :=
  { id := 1, members := ["A", "B", "C"], permissions := [fun _ => true],
    tallyRule := rule, votingPeriod := 100 }

/-- The store after proposal P1 was submitted by A at time 0. -/
def scenarioStore (rule : TallyRule) : Store :=
  (Create emptyStore (scenarioCommittee rule) "allowed content" "A" 0).1

/-- A proposal id is decided in a store when its proposal is there and no
longer Pending. -/
def Decided (s : Store) (proposalId : Nat) : Prop :=
  ∃ p, s.proposals proposalId = some p ∧ p.status ≠ .Pending

/-- A transition from `s` to `t` invoking the callbacks `fired` respects
single execution: a decided proposal stays decided and is not executed, no
proposal is executed twice, and an executed proposal is decided afterwards. -/
def ExecutesOnce (s : Store) (fired : List Nat) (t : Store) : Prop :=
  ∀ q, (Decided s q → Decided t q ∧ fired.count q = 0) ∧ fired.count q ≤ 1 ∧
    (fired.count q = 1 → Decided t q)

end Engine

/-! ## Observations distribute over the pieces of a run -/

@[simp] theorem generated_append {T : Types} (a b : List (Event T)) :
    generated (a ++ b) = generated a ++ generated b := by
  induction a with
  | nil => rfl
  | cons e es ih => cases e <;> simp [generated, ih]

@[simp] theorem generated_written {T : Types} (rs : List Response) :
    generated (written rs : List (Event T)) = [] := by
  induction rs with
  | nil => rfl
  | cons x xs ih => simpa [written, generated] using ih

@[simp] theorem generated_txWritten {T : Types} (ws : List Written) (msgs : List (Msg T)) :
    generated (txWritten ws msgs) = [] := by
  induction ws with
  | nil => rfl
  | cons x xs ih => cases x <;> simpa [txWritten, generated] using ih

@[simp] theorem responses_append {T : Types} (a b : List (Event T)) :
    responses (a ++ b) = responses a ++ responses b := by
  induction a with
  | nil => rfl
  | cons e es ih => cases e <;> simp [responses, ih]

@[simp] theorem responses_written {T : Types} (rs : List Response) :
    responses (written rs : List (Event T)) = rs.map Written.response := by
  induction rs with
  | nil => rfl
  | cons x xs ih => simpa [written, responses] using ih

@[simp] theorem responses_txWritten {T : Types} (ws : List Written) (msgs : List (Msg T)) :
    responses (txWritten ws msgs) = ws := by
  induction ws with
  | nil => rfl
  | cons x xs ih => cases x <;> simpa [txWritten, responses] using ih

@[simp] theorem constructed_append {T : Types} (a b : List (Event T)) :
    constructed (a ++ b) = constructed a ++ constructed b := by
  induction a with
  | nil => rfl
  | cons e es ih => cases e <;> simp [constructed, ih]

@[simp] theorem constructed_written {T : Types} (rs : List Response) :
    constructed (written rs : List (Event T)) = [] := by
  induction rs with
  | nil => rfl
  | cons x xs ih => simpa [written, constructed] using ih

@[simp] theorem constructed_txWritten {T : Types} (ws : List Written) (msgs : List (Msg T)) :
    constructed (txWritten ws msgs) = [] := by
  induction ws with
  | nil => rfl
  | cons x xs ih => cases x <;> simpa [txWritten, constructed] using ih

@[simp] theorem validated_append {T : Types} (a b : List (Event T)) :
    validated (a ++ b) = validated a ++ validated b := by
  induction a with
  | nil => rfl
  | cons e es ih => cases e <;> simp [validated, ih]

@[simp] theorem validated_written {T : Types} (rs : List Response) :
    validated (written rs : List (Event T)) = [] := by
  induction rs with
  | nil => rfl
  | cons x xs ih => simpa [written, validated] using ih

@[simp] theorem validated_txWritten {T : Types} (ws : List Written) (msgs : List (Msg T)) :
    validated (txWritten ws msgs) = [] := by
  induction ws with
  | nil => rfl
  | cons x xs ih => cases x <;> simpa [txWritten, validated] using ih

@[simp] theorem bodyReads_append {T : Types} (a b : List (Event T)) :
    bodyReads (a ++ b) = bodyReads a + bodyReads b := by
  induction a with
  | nil => simp [bodyReads]
  | cons e es ih => cases e <;> simp [bodyReads, ih]; omega

@[simp] theorem bodyReads_written {T : Types} (rs : List Response) :
    bodyReads (written rs : List (Event T)) = 0 := by
  induction rs with
  | nil => rfl
  | cons x xs ih => simpa [written, bodyReads] using ih

theorem getLast?_cons_of_ne_nil {α : Type} (a : α) {l : List α} (h : l ≠ []) :
    (a :: l).getLast? = l.getLast? := by
  cases l with
  | nil => exact absurd rfl h
  | cons b t => simp [List.getLast?_cons_cons]

theorem getLast?_append_of_ne_nil {α : Type} (l1 : List α) {l2 : List α} (h : l2 ≠ []) :
    (l1 ++ l2).getLast? = l2.getLast? := by
  induction l1 with
  | nil => rfl
  | cons a t ih =>
    rw [List.cons_append, getLast?_cons_of_ne_nil a (by simp [h]), ih]

theorem callValidateBasic_some {α : Type} (method : α → Option String) (v : α) :
    callValidateBasic method (some v) = .returns (method v) := rfl

theorem callValidateBasic_returns {α : Type} {method : α → Option String} {x : Option α}
    {err : Option String} (h : callValidateBasic method x = .returns err) :
    ∃ v, x = some v ∧ method v = err := by
  cases x with
  | none => simp [callValidateBasic] at h
  | some v => exact ⟨v, rfl, by simpa [callValidateBasic] using h⟩

theorem callValidateBasic_panics {α : Type} {method : α → Option String} {x : Option α} :
    callValidateBasic method x = .panics ↔ x = none := by
  cases x <;> simp [callValidateBasic]

theorem contentValidateBasic_not_mem_txWritten {T : Types} (c : Option T.Content)
    (ws : List Written) (msgs : List (Msg T)) :
    Event.contentValidateBasic c ∉ txWritten ws msgs := by
  intro h
  obtain ⟨a, _, ha⟩ := List.mem_map.mp h
  cases a <;> simp at ha

/-! ## What each handler generates -/

theorem generated_postProposalHandlerFn {T : Types} (sdk : SDK T) (cliCtx : T.CLIContext)
    (r : Request T) :
    generated (postProposalHandlerFn sdk cliCtx r) =
      if firstFailingCheck (postProposalChecks sdk cliCtx r) = none then
        [(postProposalBaseReq sdk cliCtx r, [postProposalMsg sdk cliCtx r])]
      else [] := by
  simp only [postProposalHandlerFn, postProposalChecks, postProposalBaseReq, postProposalMsg,
    urlVariableCheck, boolCheck, errorCheck]
  by_cases hvar : len (mapIndex r.vars sdk.RestCommitteeID) = 0 <;>
  cases hparse : (sdk.ParseUint64OrReturnBadRequest (mapIndex r.vars sdk.RestCommitteeID)).ok <;>
  cases hread : (sdk.ReadPostProposalReq (sdk.Codec cliCtx) r).ok <;>
  cases hbase : (sdk.BaseReqValidateBasic
    (sdk.Sanitize (sdk.ReadPostProposalReq (sdk.Codec cliCtx) r).req.BaseReq)).ok <;>
  rcases hcontent : callValidateBasic sdk.PubProposalValidateBasic
    (sdk.ReadPostProposalReq (sdk.Codec cliCtx) r).req.PubProposal with _ | (_ | cerr) <;>
  cases hmsg : sdk.MsgValidateBasic (Msg.submitProposal (NewMsgSubmitProposal
    (sdk.ReadPostProposalReq (sdk.Codec cliCtx) r).req.PubProposal
    (sdk.ReadPostProposalReq (sdk.Codec cliCtx) r).req.Proposer
    (sdk.ParseUint64OrReturnBadRequest (mapIndex r.vars sdk.RestCommitteeID)).n)) <;>
  simp [hvar, hparse, hread, hbase, hcontent, hmsg, firstFailingCheck, generated,
    WriteErrorResponse, interfaceCheck, errorCheck]

theorem generated_postVoteHandlerFn {T : Types} (sdk : SDK T) (cliCtx : T.CLIContext)
    (r : Request T) :
    generated (postVoteHandlerFn sdk cliCtx r) =
      if firstFailingCheck (postVoteChecks sdk cliCtx r) = none then
        [(postVoteBaseReq sdk cliCtx r, [postVoteMsg sdk cliCtx r])]
      else [] := by
  simp only [postVoteHandlerFn, postVoteChecks, postVoteBaseReq, postVoteMsg,
    urlVariableCheck, boolCheck, errorCheck]
  by_cases hvar : len (mapIndex r.vars sdk.RestProposalID) = 0 <;>
  cases hparse : (sdk.ParseUint64OrReturnBadRequest (mapIndex r.vars sdk.RestProposalID)).ok <;>
  cases hread : (sdk.ReadPostVoteReq (sdk.Codec cliCtx) r).ok <;>
  cases hbase : (sdk.BaseReqValidateBasic
    (sdk.Sanitize (sdk.ReadPostVoteReq (sdk.Codec cliCtx) r).req.BaseReq)).ok <;>
  cases hmsg : sdk.MsgValidateBasic (Msg.vote (NewMsgVote
    (sdk.ReadPostVoteReq (sdk.Codec cliCtx) r).req.Voter
    (sdk.ParseUint64OrReturnBadRequest (mapIndex r.vars sdk.RestProposalID)).n)) <;>
  simp [hvar, hparse, hread, hbase, hmsg, firstFailingCheck, generated, WriteErrorResponse]

theorem generated_postGovProposalHandlerFn {T : Types} (sdk : SDK T) (cliCtx : T.CLIContext)
    (r : Request T) :
    generated (postGovProposalHandlerFn sdk cliCtx r) =
      if firstFailingCheck (postGovProposalChecks sdk cliCtx r) = none then
        [(postGovProposalBaseReq sdk cliCtx r, [postGovProposalMsg sdk cliCtx r])]
      else [] := by
  simp only [postGovProposalHandlerFn, postGovProposalChecks, postGovProposalBaseReq,
    postGovProposalMsg, boolCheck, errorCheck]
  cases hread : (sdk.ReadPostGovProposalReq (sdk.Codec cliCtx) r).ok <;>
  cases hbase : (sdk.BaseReqValidateBasic
    (sdk.Sanitize (sdk.ReadPostGovProposalReq (sdk.Codec cliCtx) r).req.BaseReq)).ok <;>
  rcases hcontent : callValidateBasic sdk.ContentValidateBasic
    (sdk.ReadPostGovProposalReq (sdk.Codec cliCtx) r).req.Content with _ | (_ | cerr) <;>
  cases hmsg : sdk.MsgValidateBasic (Msg.govSubmitProposal (sdk.GovNewMsgSubmitProposal
    (sdk.ReadPostGovProposalReq (sdk.Codec cliCtx) r).req.Content
    (sdk.ReadPostGovProposalReq (sdk.Codec cliCtx) r).req.Deposit
    (sdk.ReadPostGovProposalReq (sdk.Codec cliCtx) r).req.Proposer)) <;>
  simp [hread, hbase, hcontent, hmsg, firstFailingCheck, generated, WriteErrorResponse,
    interfaceCheck, errorCheck]

theorem postProposalChecks_pass_iff {T : Types} (sdk : SDK T) (cliCtx : T.CLIContext)
    (r : Request T) :
    firstFailingCheck (postProposalChecks sdk cliCtx r) = none ↔
      len (mapIndex r.vars sdk.RestCommitteeID) ≠ 0 ∧
      (sdk.ParseUint64OrReturnBadRequest (mapIndex r.vars sdk.RestCommitteeID)).ok = true ∧
      (sdk.ReadPostProposalReq (sdk.Codec cliCtx) r).ok = true ∧
      (sdk.BaseReqValidateBasic (postProposalBaseReq sdk cliCtx r)).ok = true ∧
      callValidateBasic sdk.PubProposalValidateBasic
        (sdk.ReadPostProposalReq (sdk.Codec cliCtx) r).req.PubProposal = .returns none ∧
      sdk.MsgValidateBasic (postProposalMsg sdk cliCtx r) = none := by
  simp only [postProposalChecks, urlVariableCheck, boolCheck, errorCheck]
  by_cases hvar : len (mapIndex r.vars sdk.RestCommitteeID) = 0 <;>
  cases hparse : (sdk.ParseUint64OrReturnBadRequest (mapIndex r.vars sdk.RestCommitteeID)).ok <;>
  cases hread : (sdk.ReadPostProposalReq (sdk.Codec cliCtx) r).ok <;>
  cases hbase : (sdk.BaseReqValidateBasic (postProposalBaseReq sdk cliCtx r)).ok <;>
  rcases hcontent : callValidateBasic sdk.PubProposalValidateBasic
    (sdk.ReadPostProposalReq (sdk.Codec cliCtx) r).req.PubProposal with _ | (_ | cerr) <;>
  cases hmsg : sdk.MsgValidateBasic (postProposalMsg sdk cliCtx r) <;>
  simp [hvar, firstFailingCheck, interfaceCheck, errorCheck]

theorem postVoteChecks_pass_iff {T : Types} (sdk : SDK T) (cliCtx : T.CLIContext)
    (r : Request T) :
    firstFailingCheck (postVoteChecks sdk cliCtx r) = none ↔
      len (mapIndex r.vars sdk.RestProposalID) ≠ 0 ∧
      (sdk.ParseUint64OrReturnBadRequest (mapIndex r.vars sdk.RestProposalID)).ok = true ∧
      (sdk.ReadPostVoteReq (sdk.Codec cliCtx) r).ok = true ∧
      (sdk.BaseReqValidateBasic (postVoteBaseReq sdk cliCtx r)).ok = true ∧
      sdk.MsgValidateBasic (postVoteMsg sdk cliCtx r) = none := by
  simp only [postVoteChecks, urlVariableCheck, boolCheck, errorCheck]
  by_cases hvar : len (mapIndex r.vars sdk.RestProposalID) = 0 <;>
  cases hparse : (sdk.ParseUint64OrReturnBadRequest (mapIndex r.vars sdk.RestProposalID)).ok <;>
  cases hread : (sdk.ReadPostVoteReq (sdk.Codec cliCtx) r).ok <;>
  cases hbase : (sdk.BaseReqValidateBasic (postVoteBaseReq sdk cliCtx r)).ok <;>
  cases hmsg : sdk.MsgValidateBasic (postVoteMsg sdk cliCtx r) <;>
  simp [hvar, firstFailingCheck]

theorem postGovProposalChecks_pass_iff {T : Types} (sdk : SDK T) (cliCtx : T.CLIContext)
    (r : Request T) :
    firstFailingCheck (postGovProposalChecks sdk cliCtx r) = none ↔
      (sdk.ReadPostGovProposalReq (sdk.Codec cliCtx) r).ok = true ∧
      (sdk.BaseReqValidateBasic (postGovProposalBaseReq sdk cliCtx r)).ok = true ∧
      callValidateBasic sdk.ContentValidateBasic
        (sdk.ReadPostGovProposalReq (sdk.Codec cliCtx) r).req.Content = .returns none ∧
      sdk.MsgValidateBasic (postGovProposalMsg sdk cliCtx r) = none := by
  simp only [postGovProposalChecks, boolCheck, errorCheck]
  cases hread : (sdk.ReadPostGovProposalReq (sdk.Codec cliCtx) r).ok <;>
  cases hbase : (sdk.BaseReqValidateBasic (postGovProposalBaseReq sdk cliCtx r)).ok <;>
  rcases hcontent : callValidateBasic sdk.ContentValidateBasic
    (sdk.ReadPostGovProposalReq (sdk.Codec cliCtx) r).req.Content with _ | (_ | cerr) <;>
  cases hmsg : sdk.MsgValidateBasic (postGovProposalMsg sdk cliCtx r) <;>
  simp [firstFailingCheck, interfaceCheck, errorCheck]

theorem mem_ite_singleton {α : Type} {c : Prop} [Decidable c] {x y : α}
    (h : x ∈ (if c then [y] else [])) : c ∧ x = y := by
  by_cases hc : c
  · simp [hc] at h
    exact ⟨hc, h⟩
  · simp [hc] at h

/-- The message-validation step of each handler: a validated message is the
one the handler built, and if its validation fails the handler answers with
the error and generates nothing. -/
theorem validated_postProposalHandlerFn {T : Types} (sdk : SDK T) (cliCtx : T.CLIContext)
    (r : Request T) (m : Msg T) (err : String)
    (hm : m ∈ validated (postProposalHandlerFn sdk cliCtx r))
    (herr : sdk.MsgValidateBasic m = some err) :
    Event.errorResponse { status := 400, text := err } ∈ postProposalHandlerFn sdk cliCtx r ∧
    generated (postProposalHandlerFn sdk cliCtx r) = [] := by
  simp only [postProposalHandlerFn] at hm ⊢
  by_cases hvar : len (mapIndex r.vars sdk.RestCommitteeID) = 0 <;>
  cases hparse : (sdk.ParseUint64OrReturnBadRequest (mapIndex r.vars sdk.RestCommitteeID)).ok <;>
  cases hread : (sdk.ReadPostProposalReq (sdk.Codec cliCtx) r).ok <;>
  cases hbase : (sdk.BaseReqValidateBasic
    (sdk.Sanitize (sdk.ReadPostProposalReq (sdk.Codec cliCtx) r).req.BaseReq)).ok <;>
  rcases hcontent : callValidateBasic sdk.PubProposalValidateBasic
    (sdk.ReadPostProposalReq (sdk.Codec cliCtx) r).req.PubProposal with _ | (_ | cerr) <;>
  cases hmsg : sdk.MsgValidateBasic (Msg.submitProposal (NewMsgSubmitProposal
    (sdk.ReadPostProposalReq (sdk.Codec cliCtx) r).req.PubProposal
    (sdk.ReadPostProposalReq (sdk.Codec cliCtx) r).req.Proposer
    (sdk.ParseUint64OrReturnBadRequest (mapIndex r.vars sdk.RestCommitteeID)).n)) <;>
  simp [hvar, hparse, hread, hbase, hcontent, hmsg, validated, WriteErrorResponse] at hm <;>
  subst hm <;>
  simp_all [generated, WriteErrorResponse, StatusBadRequest]

theorem validated_postVoteHandlerFn {T : Types} (sdk : SDK T) (cliCtx : T.CLIContext)
    (r : Request T) (m : Msg T) (err : String)
    (hm : m ∈ validated (postVoteHandlerFn sdk cliCtx r))
    (herr : sdk.MsgValidateBasic m = some err) :
    Event.errorResponse { status := 400, text := err } ∈ postVoteHandlerFn sdk cliCtx r ∧
    generated (postVoteHandlerFn sdk cliCtx r) = [] := by
  simp only [postVoteHandlerFn] at hm ⊢
  by_cases hvar : len (mapIndex r.vars sdk.RestProposalID) = 0 <;>
  cases hparse : (sdk.ParseUint64OrReturnBadRequest (mapIndex r.vars sdk.RestProposalID)).ok <;>
  cases hread : (sdk.ReadPostVoteReq (sdk.Codec cliCtx) r).ok <;>
  cases hbase : (sdk.BaseReqValidateBasic
    (sdk.Sanitize (sdk.ReadPostVoteReq (sdk.Codec cliCtx) r).req.BaseReq)).ok <;>
  cases hmsg : sdk.MsgValidateBasic (Msg.vote (NewMsgVote
    (sdk.ReadPostVoteReq (sdk.Codec cliCtx) r).req.Voter
    (sdk.ParseUint64OrReturnBadRequest (mapIndex r.vars sdk.RestProposalID)).n)) <;>
  simp [hvar, hparse, hread, hbase, hmsg, validated, WriteErrorResponse] at hm <;>
  subst hm <;>
  simp_all [generated, WriteErrorResponse, StatusBadRequest]

theorem validated_postGovProposalHandlerFn {T : Types} (sdk : SDK T) (cliCtx : T.CLIContext)
    (r : Request T) (m : Msg T) (err : String)
    (hm : m ∈ validated (postGovProposalHandlerFn sdk cliCtx r))
    (herr : sdk.MsgValidateBasic m = some err) :
    Event.errorResponse { status := 400, text := err } ∈ postGovProposalHandlerFn sdk cliCtx r ∧
    generated (postGovProposalHandlerFn sdk cliCtx r) = [] := by
  simp only [postGovProposalHandlerFn] at hm ⊢
  cases hread : (sdk.ReadPostGovProposalReq (sdk.Codec cliCtx) r).ok <;>
  cases hbase : (sdk.BaseReqValidateBasic
    (sdk.Sanitize (sdk.ReadPostGovProposalReq (sdk.Codec cliCtx) r).req.BaseReq)).ok <;>
  rcases hcontent : callValidateBasic sdk.ContentValidateBasic
    (sdk.ReadPostGovProposalReq (sdk.Codec cliCtx) r).req.Content with _ | (_ | cerr) <;>
  cases hmsg : sdk.MsgValidateBasic (Msg.govSubmitProposal (sdk.GovNewMsgSubmitProposal
    (sdk.ReadPostGovProposalReq (sdk.Codec cliCtx) r).req.Content
    (sdk.ReadPostGovProposalReq (sdk.Codec cliCtx) r).req.Deposit
    (sdk.ReadPostGovProposalReq (sdk.Codec cliCtx) r).req.Proposer)) <;>
  simp [hread, hbase, hcontent, hmsg, validated, WriteErrorResponse] at hm <;>
  subst hm <;>
  simp_all [generated, WriteErrorResponse, StatusBadRequest]

/-- Once the checks before the message pass, `postProposalHandlerFn` builds
the message, calls its `ValidateBasic()`, and answers by its outcome. -/
theorem messageStep_postProposalHandlerFn {T : Types} (sdk : SDK T) (cliCtx : T.CLIContext)
    (r : Request T)
    (hvar : len (mapIndex r.vars sdk.RestCommitteeID) ≠ 0)
    (hparse : (sdk.ParseUint64OrReturnBadRequest (mapIndex r.vars sdk.RestCommitteeID)).ok = true)
    (hread : (sdk.ReadPostProposalReq (sdk.Codec cliCtx) r).ok = true)
    (hbase : (sdk.BaseReqValidateBasic (postProposalBaseReq sdk cliCtx r)).ok = true)
    (hcontent : callValidateBasic sdk.PubProposalValidateBasic
      (sdk.ReadPostProposalReq (sdk.Codec cliCtx) r).req.PubProposal = .returns none) :
    constructed (postProposalHandlerFn sdk cliCtx r) = [postProposalMsg sdk cliCtx r] ∧
    validated (postProposalHandlerFn sdk cliCtx r) = [postProposalMsg sdk cliCtx r] ∧
    (∀ err, sdk.MsgValidateBasic (postProposalMsg sdk cliCtx r) = some err →
      (postProposalHandlerFn sdk cliCtx r).getLast? =
        some (Event.errorResponse { status := 400, text := err }) ∧
      generated (postProposalHandlerFn sdk cliCtx r) = []) ∧
    (sdk.MsgValidateBasic (postProposalMsg sdk cliCtx r) = none →
      generated (postProposalHandlerFn sdk cliCtx r) =
        [(postProposalBaseReq sdk cliCtx r, [postProposalMsg sdk cliCtx r])]) := by
  simp only [postProposalBaseReq, postProposalMsg] at hbase ⊢
  cases hmsg : sdk.MsgValidateBasic (Msg.submitProposal (NewMsgSubmitProposal
    (sdk.ReadPostProposalReq (sdk.Codec cliCtx) r).req.PubProposal
    (sdk.ReadPostProposalReq (sdk.Codec cliCtx) r).req.Proposer
    (sdk.ParseUint64OrReturnBadRequest (mapIndex r.vars sdk.RestCommitteeID)).n)) <;>
  simp [postProposalHandlerFn, hvar, hparse, hread, hbase, hcontent, hmsg, constructed,
    validated, generated, WriteErrorResponse, StatusBadRequest, getLast?_cons_of_ne_nil,
    getLast?_append_of_ne_nil]

/-- Once the checks before the message pass, `postVoteHandlerFn` builds the
message, calls its `ValidateBasic()`, and answers by its outcome. -/
theorem messageStep_postVoteHandlerFn {T : Types} (sdk : SDK T) (cliCtx : T.CLIContext)
    (r : Request T)
    (hvar : len (mapIndex r.vars sdk.RestProposalID) ≠ 0)
    (hparse : (sdk.ParseUint64OrReturnBadRequest (mapIndex r.vars sdk.RestProposalID)).ok = true)
    (hread : (sdk.ReadPostVoteReq (sdk.Codec cliCtx) r).ok = true)
    (hbase : (sdk.BaseReqValidateBasic (postVoteBaseReq sdk cliCtx r)).ok = true) :
    constructed (postVoteHandlerFn sdk cliCtx r) = [postVoteMsg sdk cliCtx r] ∧
    validated (postVoteHandlerFn sdk cliCtx r) = [postVoteMsg sdk cliCtx r] ∧
    (∀ err, sdk.MsgValidateBasic (postVoteMsg sdk cliCtx r) = some err →
      (postVoteHandlerFn sdk cliCtx r).getLast? =
        some (Event.errorResponse { status := 400, text := err }) ∧
      generated (postVoteHandlerFn sdk cliCtx r) = []) ∧
    (sdk.MsgValidateBasic (postVoteMsg sdk cliCtx r) = none →
      generated (postVoteHandlerFn sdk cliCtx r) =
        [(postVoteBaseReq sdk cliCtx r, [postVoteMsg sdk cliCtx r])]) := by
  simp only [postVoteBaseReq, postVoteMsg] at hbase ⊢
  cases hmsg : sdk.MsgValidateBasic (Msg.vote (NewMsgVote
    (sdk.ReadPostVoteReq (sdk.Codec cliCtx) r).req.Voter
    (sdk.ParseUint64OrReturnBadRequest (mapIndex r.vars sdk.RestProposalID)).n)) <;>
  simp [postVoteHandlerFn, hvar, hparse, hread, hbase, hmsg, constructed,
    validated, generated, WriteErrorResponse, StatusBadRequest, getLast?_cons_of_ne_nil,
    getLast?_append_of_ne_nil]

/-- Once the checks before the message pass, `postGovProposalHandlerFn`
builds the message, calls its `ValidateBasic()`, and answers by its
outcome. -/
theorem messageStep_postGovProposalHandlerFn {T : Types} (sdk : SDK T)
    (cliCtx : T.CLIContext) (r : Request T)
    (hread : (sdk.ReadPostGovProposalReq (sdk.Codec cliCtx) r).ok = true)
    (hbase : (sdk.BaseReqValidateBasic (postGovProposalBaseReq sdk cliCtx r)).ok = true)
    (hcontent : callValidateBasic sdk.ContentValidateBasic
      (sdk.ReadPostGovProposalReq (sdk.Codec cliCtx) r).req.Content = .returns none) :
    constructed (postGovProposalHandlerFn sdk cliCtx r) = [postGovProposalMsg sdk cliCtx r] ∧
    validated (postGovProposalHandlerFn sdk cliCtx r) = [postGovProposalMsg sdk cliCtx r] ∧
    (∀ err, sdk.MsgValidateBasic (postGovProposalMsg sdk cliCtx r) = some err →
      (postGovProposalHandlerFn sdk cliCtx r).getLast? =
        some (Event.errorResponse { status := 400, text := err }) ∧
      generated (postGovProposalHandlerFn sdk cliCtx r) = []) ∧
    (sdk.MsgValidateBasic (postGovProposalMsg sdk cliCtx r) = none →
      generated (postGovProposalHandlerFn sdk cliCtx r) =
        [(postGovProposalBaseReq sdk cliCtx r, [postGovProposalMsg sdk cliCtx r])]) := by
  simp only [postGovProposalBaseReq, postGovProposalMsg] at hbase ⊢
  cases hmsg : sdk.MsgValidateBasic (Msg.govSubmitProposal (sdk.GovNewMsgSubmitProposal
    (sdk.ReadPostGovProposalReq (sdk.Codec cliCtx) r).req.Content
    (sdk.ReadPostGovProposalReq (sdk.Codec cliCtx) r).req.Deposit
    (sdk.ReadPostGovProposalReq (sdk.Codec cliCtx) r).req.Proposer)) <;>
  simp [postGovProposalHandlerFn, hread, hbase, hcontent, hmsg, constructed,
    validated, generated, WriteErrorResponse, StatusBadRequest, getLast?_cons_of_ne_nil,
    getLast?_append_of_ne_nil]

/-- What a generated transaction of `postProposalHandlerFn` is. -/
theorem mem_generated_postProposalHandlerFn {T : Types} (sdk : SDK T) (cliCtx : T.CLIContext)
    (r : Request T) (baseReq : T.BaseReq) (msgs : List (Msg T))
    (hgen : (baseReq, msgs) ∈ generated (postProposalHandlerFn sdk cliCtx r)) :
    firstFailingCheck (postProposalChecks sdk cliCtx r) = none ∧
    baseReq = postProposalBaseReq sdk cliCtx r ∧ msgs = [postProposalMsg sdk cliCtx r] := by
  rw [generated_postProposalHandlerFn] at hgen
  obtain ⟨hc, heq⟩ := mem_ite_singleton hgen
  exact ⟨hc, (Prod.mk.inj heq).1, (Prod.mk.inj heq).2⟩

/-- What a generated transaction of `postVoteHandlerFn` is. -/
theorem mem_generated_postVoteHandlerFn {T : Types} (sdk : SDK T) (cliCtx : T.CLIContext)
    (r : Request T) (baseReq : T.BaseReq) (msgs : List (Msg T))
    (hgen : (baseReq, msgs) ∈ generated (postVoteHandlerFn sdk cliCtx r)) :
    firstFailingCheck (postVoteChecks sdk cliCtx r) = none ∧
    baseReq = postVoteBaseReq sdk cliCtx r ∧ msgs = [postVoteMsg sdk cliCtx r] := by
  rw [generated_postVoteHandlerFn] at hgen
  obtain ⟨hc, heq⟩ := mem_ite_singleton hgen
  exact ⟨hc, (Prod.mk.inj heq).1, (Prod.mk.inj heq).2⟩

/-- What a generated transaction of `postGovProposalHandlerFn` is. -/
theorem mem_generated_postGovProposalHandlerFn {T : Types} (sdk : SDK T)
    (cliCtx : T.CLIContext) (r : Request T) (baseReq : T.BaseReq) (msgs : List (Msg T))
    (hgen : (baseReq, msgs) ∈ generated (postGovProposalHandlerFn sdk cliCtx r)) :
    firstFailingCheck (postGovProposalChecks sdk cliCtx r) = none ∧
    baseReq = postGovProposalBaseReq sdk cliCtx r ∧
    msgs = [postGovProposalMsg sdk cliCtx r] := by
  rw [generated_postGovProposalHandlerFn] at hgen
  obtain ⟨hc, heq⟩ := mem_ite_singleton hgen
  exact ⟨hc, (Prod.mk.inj heq).1, (Prod.mk.inj heq).2⟩

theorem written_cases (ok : Bool) (ws : List Response)
    (h : ws.length = if ok then 0 else 1) :
    (ok = true ∧ ws = []) ∨ (ok = false ∧ ∃ w, ws = [w]) := by
  cases ok with
  | true => exact Or.inl ⟨rfl, List.length_eq_zero.mp (by simpa using h)⟩
  | false => exact Or.inr ⟨rfl, List.length_eq_one.mp (by simpa using h)⟩

theorem txWritten_singleton {T : Types} (o : Written) (msgs : List (Msg T)) :
    ∃ e : Event T, txWritten [o] msgs = [e] ∧ e.isResponse = true := by
  cases o with
  | stdTx => exact ⟨_, rfl, rfl⟩
  | response resp => exact ⟨_, rfl, rfl⟩

theorem answersExactlyOnce_postProposalHandlerFn {T : Types} (sdk : SDK T)
    (hsdk : sdk.WellBehaved) (hgen : sdk.GenerateAnswersOnce) (cliCtx : T.CLIContext)
    (r : Request T)
    (hnil : (sdk.ReadPostProposalReq (sdk.Codec cliCtx) r).req.PubProposal ≠ none) :
    AnswersExactlyOnce (postProposalHandlerFn sdk cliCtx r) (postProposalChecks sdk cliCtx r)
      (postProposalBaseReq sdk cliCtx r, [postProposalMsg sdk cliCtx r])
      (sdk.WriteGenerateStdTxResponse cliCtx (postProposalBaseReq sdk cliCtx r)
        [postProposalMsg sdk cliCtx r]) := by
  obtain ⟨o, ho⟩ := List.length_eq_one.mp (hgen cliCtx (postProposalBaseReq sdk cliCtx r)
    [postProposalMsg sdk cliCtx r])
  obtain ⟨e, he, hresp⟩ := txWritten_singleton o [postProposalMsg sdk cliCtx r]
  rw [ho]
  simp only [postProposalBaseReq, postProposalMsg] at ho he
  simp only [AnswersExactlyOnce, postProposalHandlerFn, postProposalChecks,
    postProposalBaseReq, postProposalMsg, urlVariableCheck, boolCheck, errorCheck,
    responseCount]
  by_cases hvar : len (mapIndex r.vars sdk.RestCommitteeID) = 0
  · simp [hvar, firstFailingCheck, WriteErrorResponse, responses, generated,
      Event.isResponse]
  rcases written_cases _ _ (hsdk.parse (mapIndex r.vars sdk.RestCommitteeID)) with
    ⟨hparse, hpw⟩ | ⟨hparse, pw, hpw⟩
  swap
  · simp [hvar, hparse, hpw, firstFailingCheck, written, responses, generated,
      Event.isResponse, getLast?_cons_of_ne_nil]
  rcases written_cases _ _ (hsdk.readProposal (sdk.Codec cliCtx) r) with
    ⟨hread, hrw⟩ | ⟨hread, rw, hrw⟩
  swap
  · simp [hvar, hparse, hpw, hread, hrw, firstFailingCheck, written, responses,
      generated, Event.isResponse, getLast?_cons_of_ne_nil]
  rcases written_cases _ _ (hsdk.baseReq
      (sdk.Sanitize (sdk.ReadPostProposalReq (sdk.Codec cliCtx) r).req.BaseReq)) with
    ⟨hbase, hbw⟩ | ⟨hbase, bw, hbw⟩
  swap
  · simp [hvar, hparse, hpw, hread, hrw, hbase, hbw, firstFailingCheck, written,
      responses, generated, Event.isResponse, getLast?_cons_of_ne_nil]
  rcases hcontent : callValidateBasic sdk.PubProposalValidateBasic
    (sdk.ReadPostProposalReq (sdk.Codec cliCtx) r).req.PubProposal with _ | (_ | cerr)
  · exact absurd (callValidateBasic_panics.mp hcontent) hnil
  · cases hmsg : sdk.MsgValidateBasic (Msg.submitProposal (NewMsgSubmitProposal
      (sdk.ReadPostProposalReq (sdk.Codec cliCtx) r).req.PubProposal
      (sdk.ReadPostProposalReq (sdk.Codec cliCtx) r).req.Proposer
      (sdk.ParseUint64OrReturnBadRequest (mapIndex r.vars sdk.RestCommitteeID)).n))
    · have hr : responses (e :: ([] : List (Event T))) = [o] := by
        rw [← he, responses_txWritten]
      have hg : generated (e :: ([] : List (Event T))) = [] := by
        rw [← he, generated_txWritten]
      simp [hvar, hparse, hpw, hread, hrw, hbase, hbw, hcontent, hmsg, ho, he, hresp, hr, hg,
        firstFailingCheck, interfaceCheck, errorCheck, written, responses, generated,
        getLast?_cons_of_ne_nil]
    · simp [hvar, hparse, hpw, hread, hrw, hbase, hbw, hcontent, hmsg, firstFailingCheck,
        interfaceCheck, errorCheck, written, responses, generated, Event.isResponse,
        WriteErrorResponse, getLast?_cons_of_ne_nil]
  · simp [hvar, hparse, hpw, hread, hrw, hbase, hbw, hcontent, firstFailingCheck,
      interfaceCheck, errorCheck, written, responses, generated, Event.isResponse,
      WriteErrorResponse, getLast?_cons_of_ne_nil]

theorem answersExactlyOnce_postVoteHandlerFn {T : Types} (sdk : SDK T)
    (hsdk : sdk.WellBehaved) (hgen : sdk.GenerateAnswersOnce) (cliCtx : T.CLIContext)
    (r : Request T) :
    AnswersExactlyOnce (postVoteHandlerFn sdk cliCtx r) (postVoteChecks sdk cliCtx r)
      (postVoteBaseReq sdk cliCtx r, [postVoteMsg sdk cliCtx r])
      (sdk.WriteGenerateStdTxResponse cliCtx (postVoteBaseReq sdk cliCtx r)
        [postVoteMsg sdk cliCtx r]) := by
  obtain ⟨o, ho⟩ := List.length_eq_one.mp (hgen cliCtx (postVoteBaseReq sdk cliCtx r)
    [postVoteMsg sdk cliCtx r])
  obtain ⟨e, he, hresp⟩ := txWritten_singleton o [postVoteMsg sdk cliCtx r]
  rw [ho]
  simp only [postVoteBaseReq, postVoteMsg] at ho he
  simp only [AnswersExactlyOnce, postVoteHandlerFn, postVoteChecks, postVoteBaseReq,
    postVoteMsg, urlVariableCheck, boolCheck, errorCheck, responseCount]
  by_cases hvar : len (mapIndex r.vars sdk.RestProposalID) = 0
  · simp [hvar, firstFailingCheck, WriteErrorResponse, responses, generated,
      Event.isResponse]
  rcases written_cases _ _ (hsdk.parse (mapIndex r.vars sdk.RestProposalID)) with
    ⟨hparse, hpw⟩ | ⟨hparse, pw, hpw⟩
  swap
  · simp [hvar, hparse, hpw, firstFailingCheck, written, responses, generated,
      Event.isResponse, getLast?_cons_of_ne_nil]
  rcases written_cases _ _ (hsdk.readVote (sdk.Codec cliCtx) r) with
    ⟨hread, hrw⟩ | ⟨hread, rw, hrw⟩
  swap
  · simp [hvar, hparse, hpw, hread, hrw, firstFailingCheck, written, responses,
      generated, Event.isResponse, getLast?_cons_of_ne_nil]
  rcases written_cases _ _ (hsdk.baseReq
      (sdk.Sanitize (sdk.ReadPostVoteReq (sdk.Codec cliCtx) r).req.BaseReq)) with
    ⟨hbase, hbw⟩ | ⟨hbase, bw, hbw⟩
  swap
  · simp [hvar, hparse, hpw, hread, hrw, hbase, hbw, firstFailingCheck, written,
      responses, generated, Event.isResponse, getLast?_cons_of_ne_nil]
  cases hmsg : sdk.MsgValidateBasic (Msg.vote (NewMsgVote
    (sdk.ReadPostVoteReq (sdk.Codec cliCtx) r).req.Voter
    (sdk.ParseUint64OrReturnBadRequest (mapIndex r.vars sdk.RestProposalID)).n))
  · have hr : responses (e :: ([] : List (Event T))) = [o] := by
      rw [← he, responses_txWritten]
    have hg : generated (e :: ([] : List (Event T))) = [] := by
      rw [← he, generated_txWritten]
    simp [hvar, hparse, hpw, hread, hrw, hbase, hbw, hmsg, ho, he, hresp, hr, hg,
      firstFailingCheck, errorCheck, written, responses, generated,
      getLast?_cons_of_ne_nil]
  · simp [hvar, hparse, hpw, hread, hrw, hbase, hbw, hmsg, firstFailingCheck,
      errorCheck, written, responses, generated, Event.isResponse,
      WriteErrorResponse, getLast?_cons_of_ne_nil]

theorem answersExactlyOnce_postGovProposalHandlerFn {T : Types} (sdk : SDK T)
    (hsdk : sdk.WellBehaved) (hgen : sdk.GenerateAnswersOnce) (cliCtx : T.CLIContext)
    (r : Request T)
    (hnil : (sdk.ReadPostGovProposalReq (sdk.Codec cliCtx) r).req.Content ≠ none) :
    AnswersExactlyOnce (postGovProposalHandlerFn sdk cliCtx r)
      (postGovProposalChecks sdk cliCtx r)
      (postGovProposalBaseReq sdk cliCtx r, [postGovProposalMsg sdk cliCtx r])
      (sdk.WriteGenerateStdTxResponse cliCtx (postGovProposalBaseReq sdk cliCtx r)
        [postGovProposalMsg sdk cliCtx r]) := by
  obtain ⟨o, ho⟩ := List.length_eq_one.mp (hgen cliCtx (postGovProposalBaseReq sdk cliCtx r)
    [postGovProposalMsg sdk cliCtx r])
  obtain ⟨e, he, hresp⟩ := txWritten_singleton o [postGovProposalMsg sdk cliCtx r]
  rw [ho]
  simp only [postGovProposalBaseReq, postGovProposalMsg] at ho he
  simp only [AnswersExactlyOnce, postGovProposalHandlerFn, postGovProposalChecks,
    postGovProposalBaseReq, postGovProposalMsg, boolCheck, errorCheck, responseCount]
  rcases written_cases _ _ (hsdk.readGov (sdk.Codec cliCtx) r) with
    ⟨hread, hrw⟩ | ⟨hread, rw, hrw⟩
  swap
  · simp [hread, hrw, firstFailingCheck, written, responses,
      generated, Event.isResponse, getLast?_cons_of_ne_nil]
  rcases written_cases _ _ (hsdk.baseReq
      (sdk.Sanitize (sdk.ReadPostGovProposalReq (sdk.Codec cliCtx) r).req.BaseReq)) with
    ⟨hbase, hbw⟩ | ⟨hbase, bw, hbw⟩
  swap
  · simp [hread, hrw, hbase, hbw, firstFailingCheck, written,
      responses, generated, Event.isResponse, getLast?_cons_of_ne_nil]
  rcases hcontent : callValidateBasic sdk.ContentValidateBasic
    (sdk.ReadPostGovProposalReq (sdk.Codec cliCtx) r).req.Content with _ | (_ | cerr)
  · exact absurd (callValidateBasic_panics.mp hcontent) hnil
  · cases hmsg : sdk.MsgValidateBasic (Msg.govSubmitProposal (sdk.GovNewMsgSubmitProposal
      (sdk.ReadPostGovProposalReq (sdk.Codec cliCtx) r).req.Content
      (sdk.ReadPostGovProposalReq (sdk.Codec cliCtx) r).req.Deposit
      (sdk.ReadPostGovProposalReq (sdk.Codec cliCtx) r).req.Proposer))
    · have hr : responses (e :: ([] : List (Event T))) = [o] := by
        rw [← he, responses_txWritten]
      have hg : generated (e :: ([] : List (Event T))) = [] := by
        rw [← he, generated_txWritten]
      simp [hread, hrw, hbase, hbw, hcontent, hmsg, ho, he, hresp, hr, hg,
        firstFailingCheck, interfaceCheck, errorCheck, written, responses, generated,
        getLast?_cons_of_ne_nil]
    · simp [hread, hrw, hbase, hbw, hcontent, hmsg, firstFailingCheck,
        interfaceCheck, errorCheck, written, responses, generated, Event.isResponse,
        WriteErrorResponse, getLast?_cons_of_ne_nil]
  · simp [hread, hrw, hbase, hbw, hcontent, firstFailingCheck,
      interfaceCheck, errorCheck, written, responses, generated, Event.isResponse,
      WriteErrorResponse, getLast?_cons_of_ne_nil]

/-- The concrete SDK satisfies the assumption on the helpers. -/
theorem exampleSDK_wellBehaved : exampleSDK.WellBehaved where
  parse := by
    intro s
    simp only [exampleSDK, exampleParseUint64]
    split
    · split <;> simp
    · simp
  readProposal := by
    intro cdc r
    rcases hb : r.body with _ | ⟨x, xs⟩ <;> simp [exampleSDK, exampleBodyError, hb]
  readVote := by
    intro cdc r
    rcases hb : r.body with _ | ⟨x, xs⟩ <;> simp [exampleSDK, exampleBodyError, hb]
  readGov := by
    intro cdc r
    rcases hb : r.body with _ | ⟨x, xs⟩ <;> simp [exampleSDK, exampleBodyError, hb]
  baseReq := by
    intro b
    by_cases h : b.ChainID = "" <;> simp [exampleSDK, h]

/-- The transaction helper of the concrete SDK writes exactly one response. -/
theorem exampleSDK_generateAnswersOnce : exampleSDK.GenerateAnswersOnce := by
  intro cliCtx baseReq msgs
  simp only [exampleSDK]
  split <;> rfl

/-! ## The handlers of `tx.go` -/

/-- C1: `postProposalHandlerFn` fails closed on invalid content. On a request
whose committee-id variable is non-empty and parses, whose body is read and
whose sanitized base request is valid, if `req.PubProposal.ValidateBasic()`
returns the error `err`, the handler writes a 400 response with the text of
`err` as its last step, constructs no message, validates no message and
generates no transaction. -/
theorem postProposal_fails_closed_on_invalid_content {T : Types} (sdk : SDK T)
    (cliCtx : T.CLIContext) (r : Request T) (err : String)
    (hvar : len (mapIndex r.vars sdk.RestCommitteeID) ≠ 0)
    (hparse : (sdk.ParseUint64OrReturnBadRequest (mapIndex r.vars sdk.RestCommitteeID)).ok = true)
    (hread : (sdk.ReadPostProposalReq (sdk.Codec cliCtx) r).ok = true)
    (hbase : (sdk.BaseReqValidateBasic
      (sdk.Sanitize (sdk.ReadPostProposalReq (sdk.Codec cliCtx) r).req.BaseReq)).ok = true)
    (hcontent : callValidateBasic sdk.PubProposalValidateBasic
      (sdk.ReadPostProposalReq (sdk.Codec cliCtx) r).req.PubProposal = .returns (some err)) :
    Event.errorResponse { status := 400, text := err } ∈ postProposalHandlerFn sdk cliCtx r ∧
    (postProposalHandlerFn sdk cliCtx r).getLast? =
      some (Event.errorResponse { status := 400, text := err }) ∧
    constructed (postProposalHandlerFn sdk cliCtx r) = [] ∧
    validated (postProposalHandlerFn sdk cliCtx r) = [] ∧
    generated (postProposalHandlerFn sdk cliCtx r) = [] := by
  simp [postProposalHandlerFn, hvar, hparse, hread, hbase, hcontent, WriteErrorResponse,
    StatusBadRequest, constructed, validated, generated, getLast?_cons_of_ne_nil,
    getLast?_append_of_ne_nil]

/-- Witness for C1: a request for committee 12 whose proposal has a blank
title is answered with the content error and nothing is generated. -/
theorem postProposal_fails_closed_on_invalid_content_witness :
    Event.errorResponse { status := 400, text := "proposal title cannot be blank" } ∈
      postProposalHandlerFn exampleSDK () exampleBlankProposalRequest ∧
    (postProposalHandlerFn exampleSDK () exampleBlankProposalRequest).getLast? =
      some (Event.errorResponse { status := 400, text := "proposal title cannot be blank" }) ∧
    constructed (postProposalHandlerFn exampleSDK () exampleBlankProposalRequest) = [] ∧
    validated (postProposalHandlerFn exampleSDK () exampleBlankProposalRequest) = [] ∧
    generated (postProposalHandlerFn exampleSDK () exampleBlankProposalRequest) = [] :=
  postProposal_fails_closed_on_invalid_content exampleSDK () exampleBlankProposalRequest
    "proposal title cannot be blank" (by decide) (by decide) (by decide) (by decide) (by decide)

/-- C2: whenever `postProposalHandlerFn` generates a transaction, its message
list is exactly `[NewMsgSubmitProposal(req.PubProposal, req.Proposer,
committeeID)]`, with `committeeID` the successfully parsed committee-id
variable and `req` the successfully read body; the message carries the body's
proposal and proposer and the parsed committee id unchanged. -/
theorem postProposal_generates_the_submit_command {T : Types} (sdk : SDK T)
    (cliCtx : T.CLIContext) (r : Request T) (baseReq : T.BaseReq) (msgs : List (Msg T))
    (hgen : (baseReq, msgs) ∈ generated (postProposalHandlerFn sdk cliCtx r)) :
    (sdk.ParseUint64OrReturnBadRequest (mapIndex r.vars sdk.RestCommitteeID)).ok = true ∧
    (sdk.ReadPostProposalReq (sdk.Codec cliCtx) r).ok = true ∧
    msgs = [Msg.submitProposal (NewMsgSubmitProposal
      (sdk.ReadPostProposalReq (sdk.Codec cliCtx) r).req.PubProposal
      (sdk.ReadPostProposalReq (sdk.Codec cliCtx) r).req.Proposer
      (sdk.ParseUint64OrReturnBadRequest (mapIndex r.vars sdk.RestCommitteeID)).n)] ∧
    ∃ m : MsgSubmitProposal T, msgs = [Msg.submitProposal m] ∧
      m.PubProposal = (sdk.ReadPostProposalReq (sdk.Codec cliCtx) r).req.PubProposal ∧
      m.Proposer = (sdk.ReadPostProposalReq (sdk.Codec cliCtx) r).req.Proposer ∧
      m.CommitteeID =
        (sdk.ParseUint64OrReturnBadRequest (mapIndex r.vars sdk.RestCommitteeID)).n := by
  obtain ⟨hpass, _, hmsgs⟩ := mem_generated_postProposalHandlerFn sdk cliCtx r baseReq msgs hgen
  obtain ⟨_, hparse, hread, _⟩ := (postProposalChecks_pass_iff sdk cliCtx r).mp hpass
  exact ⟨hparse, hread, hmsgs, _, hmsgs, rfl, rfl, rfl⟩

/-- Witness for C2: the request for committee 12 yields the one message
built from its proposal, its proposer and the id 12. -/
theorem postProposal_generates_the_submit_command_witness :
    generated (postProposalHandlerFn exampleSDK () exampleProposalRequest) =
      [(exampleBaseReq, [Msg.submitProposal exampleSubmitProposal])] ∧
    exampleParseUint64 "12" = { n := 12, ok := true, written := [] } ∧
    ∃ m : MsgSubmitProposal exampleTypes,
      [Msg.submitProposal exampleSubmitProposal] = [Msg.submitProposal m] ∧
      m.PubProposal = some "raise debt limit" ∧ m.Proposer = "kava1abc" ∧ m.CommitteeID = 12 :=
  ⟨rfl, rfl,
    (postProposal_generates_the_submit_command exampleSDK () exampleProposalRequest
      exampleBaseReq [Msg.submitProposal exampleSubmitProposal]
      (by
        rw [show generated (postProposalHandlerFn exampleSDK () exampleProposalRequest) =
          [(exampleBaseReq, [Msg.submitProposal exampleSubmitProposal])] from rfl]
        exact List.mem_singleton_self _)).2.2.2⟩

/-- C3: whenever `postVoteHandlerFn` generates a transaction, its message list
is exactly `[NewMsgVote(req.Voter, proposalID)]`, with `proposalID` the
successfully parsed proposal-id variable; the message has the two components
voter and proposal id and nothing else, so any other accepted request with the
same voter and the same proposal id yields the same message list. -/
theorem postVote_generates_the_vote_command {T : Types} (sdk : SDK T)
    (cliCtx : T.CLIContext) (r : Request T) (baseReq : T.BaseReq) (msgs : List (Msg T))
    (hgen : (baseReq, msgs) ∈ generated (postVoteHandlerFn sdk cliCtx r)) :
    (sdk.ParseUint64OrReturnBadRequest (mapIndex r.vars sdk.RestProposalID)).ok = true ∧
    (sdk.ReadPostVoteReq (sdk.Codec cliCtx) r).ok = true ∧
    msgs = [Msg.vote (NewMsgVote (sdk.ReadPostVoteReq (sdk.Codec cliCtx) r).req.Voter
      (sdk.ParseUint64OrReturnBadRequest (mapIndex r.vars sdk.RestProposalID)).n)] ∧
    (∃ m : MsgVote T, msgs = [Msg.vote m] ∧
      m.Voter = (sdk.ReadPostVoteReq (sdk.Codec cliCtx) r).req.Voter ∧
      m.ProposalID = (sdk.ParseUint64OrReturnBadRequest (mapIndex r.vars sdk.RestProposalID)).n ∧
      ∀ m2 : MsgVote T, m2.Voter = m.Voter → m2.ProposalID = m.ProposalID → m2 = m) ∧
    ∀ (cliCtx2 : T.CLIContext) (r2 : Request T) (baseReq2 : T.BaseReq) (msgs2 : List (Msg T)),
      (baseReq2, msgs2) ∈ generated (postVoteHandlerFn sdk cliCtx2 r2) →
      (sdk.ReadPostVoteReq (sdk.Codec cliCtx2) r2).req.Voter =
        (sdk.ReadPostVoteReq (sdk.Codec cliCtx) r).req.Voter →
      (sdk.ParseUint64OrReturnBadRequest (mapIndex r2.vars sdk.RestProposalID)).n =
        (sdk.ParseUint64OrReturnBadRequest (mapIndex r.vars sdk.RestProposalID)).n →
      msgs2 = msgs := by
  obtain ⟨hpass, _, hmsgs⟩ := mem_generated_postVoteHandlerFn sdk cliCtx r baseReq msgs hgen
  obtain ⟨_, hparse, hread, _⟩ := (postVoteChecks_pass_iff sdk cliCtx r).mp hpass
  refine ⟨hparse, hread, hmsgs, ⟨_, hmsgs, rfl, rfl, ?_⟩, ?_⟩
  · intro m2 hv hp
    cases m2
    simp only [NewMsgVote] at hv hp ⊢
    subst hv hp
    rfl
  · intro cliCtx2 r2 baseReq2 msgs2 hgen2 hv hp
    obtain ⟨_, _, hmsgs2⟩ := mem_generated_postVoteHandlerFn sdk cliCtx2 r2 baseReq2 msgs2 hgen2
    rw [hmsgs2, hmsgs, postVoteMsg, postVoteMsg, hv, hp]

/-- Witness for C3: the vote request on proposal 7 yields the one message of
voter and proposal id, and so does a second request with the same voter and
proposal id. -/
theorem postVote_generates_the_vote_command_witness :
    generated (postVoteHandlerFn exampleSDK () exampleVoteRequest) =
      [(exampleBaseReq, [Msg.vote exampleVote])] ∧
    generated (postVoteHandlerFn exampleSDK () exampleSecondVoteRequest) =
      [(exampleTestnetBaseReq, [Msg.vote exampleVote])] ∧
    ∀ msgs2 : List (Msg exampleTypes),
      (exampleTestnetBaseReq, msgs2) ∈
        generated (postVoteHandlerFn exampleSDK () exampleSecondVoteRequest) →
      msgs2 = [Msg.vote exampleVote] :=
  ⟨rfl, rfl, fun msgs2 h2 =>
    (postVote_generates_the_vote_command exampleSDK () exampleVoteRequest exampleBaseReq
      [Msg.vote exampleVote]
      (by
        rw [show generated (postVoteHandlerFn exampleSDK () exampleVoteRequest) =
          [(exampleBaseReq, [Msg.vote exampleVote])] from rfl]
        exact List.mem_singleton_self _)).2.2.2.2 () exampleSecondVoteRequest
      exampleTestnetBaseReq msgs2 h2 rfl rfl⟩

/-- C4: every command the handlers emit is validated. For each of
`postProposalHandlerFn`, `postVoteHandlerFn` and `postGovProposalHandlerFn`:
once the checks before the message pass, the handler builds the message and
calls `msg.ValidateBasic()` on it; if that returns an error, the handler
writes, as its last step, a 400 response with the error's text and generates
no transaction, and if it returns none the transaction is generated from that
one message. So a generated transaction holds exactly the one message the
handler constructed and validated without error, and whenever
`msg.ValidateBasic()` is called and returns an error the 400 response is
written and no transaction is generated. -/
theorem emitted_commands_are_validated {T : Types} (sdk : SDK T) (cliCtx : T.CLIContext)
    (r : Request T) :
    ((len (mapIndex r.vars sdk.RestCommitteeID) ≠ 0 →
      (sdk.ParseUint64OrReturnBadRequest (mapIndex r.vars sdk.RestCommitteeID)).ok = true →
      (sdk.ReadPostProposalReq (sdk.Codec cliCtx) r).ok = true →
      (sdk.BaseReqValidateBasic (postProposalBaseReq sdk cliCtx r)).ok = true →
      callValidateBasic sdk.PubProposalValidateBasic
        (sdk.ReadPostProposalReq (sdk.Codec cliCtx) r).req.PubProposal = .returns none →
      constructed (postProposalHandlerFn sdk cliCtx r) = [postProposalMsg sdk cliCtx r] ∧
      validated (postProposalHandlerFn sdk cliCtx r) = [postProposalMsg sdk cliCtx r] ∧
      (∀ err, sdk.MsgValidateBasic (postProposalMsg sdk cliCtx r) = some err →
        (postProposalHandlerFn sdk cliCtx r).getLast? =
          some (Event.errorResponse { status := 400, text := err }) ∧
        generated (postProposalHandlerFn sdk cliCtx r) = []) ∧
      (sdk.MsgValidateBasic (postProposalMsg sdk cliCtx r) = none →
        generated (postProposalHandlerFn sdk cliCtx r) =
          [(postProposalBaseReq sdk cliCtx r, [postProposalMsg sdk cliCtx r])])) ∧
     (∀ (baseReq : T.BaseReq) (msgs : List (Msg T)),
      (baseReq, msgs) ∈ generated (postProposalHandlerFn sdk cliCtx r) →
      ∃ m : Msg T, msgs = [m] ∧ constructed (postProposalHandlerFn sdk cliCtx r) = [m] ∧
        validated (postProposalHandlerFn sdk cliCtx r) = [m] ∧ sdk.MsgValidateBasic m = none) ∧
     (∀ (m : Msg T) (err : String), m ∈ validated (postProposalHandlerFn sdk cliCtx r) →
      sdk.MsgValidateBasic m = some err →
      Event.errorResponse { status := 400, text := err } ∈ postProposalHandlerFn sdk cliCtx r ∧
      generated (postProposalHandlerFn sdk cliCtx r) = [])) ∧
    ((len (mapIndex r.vars sdk.RestProposalID) ≠ 0 →
      (sdk.ParseUint64OrReturnBadRequest (mapIndex r.vars sdk.RestProposalID)).ok = true →
      (sdk.ReadPostVoteReq (sdk.Codec cliCtx) r).ok = true →
      (sdk.BaseReqValidateBasic (postVoteBaseReq sdk cliCtx r)).ok = true →
      constructed (postVoteHandlerFn sdk cliCtx r) = [postVoteMsg sdk cliCtx r] ∧
      validated (postVoteHandlerFn sdk cliCtx r) = [postVoteMsg sdk cliCtx r] ∧
      (∀ err, sdk.MsgValidateBasic (postVoteMsg sdk cliCtx r) = some err →
        (postVoteHandlerFn sdk cliCtx r).getLast? =
          some (Event.errorResponse { status := 400, text := err }) ∧
        generated (postVoteHandlerFn sdk cliCtx r) = []) ∧
      (sdk.MsgValidateBasic (postVoteMsg sdk cliCtx r) = none →
        generated (postVoteHandlerFn sdk cliCtx r) =
          [(postVoteBaseReq sdk cliCtx r, [postVoteMsg sdk cliCtx r])])) ∧
     (∀ (baseReq : T.BaseReq) (msgs : List (Msg T)),
      (baseReq, msgs) ∈ generated (postVoteHandlerFn sdk cliCtx r) →
      ∃ m : Msg T, msgs = [m] ∧ constructed (postVoteHandlerFn sdk cliCtx r) = [m] ∧
        validated (postVoteHandlerFn sdk cliCtx r) = [m] ∧ sdk.MsgValidateBasic m = none) ∧
     (∀ (m : Msg T) (err : String), m ∈ validated (postVoteHandlerFn sdk cliCtx r) →
      sdk.MsgValidateBasic m = some err →
      Event.errorResponse { status := 400, text := err } ∈ postVoteHandlerFn sdk cliCtx r ∧
      generated (postVoteHandlerFn sdk cliCtx r) = [])) ∧
    (((sdk.ReadPostGovProposalReq (sdk.Codec cliCtx) r).ok = true →
      (sdk.BaseReqValidateBasic (postGovProposalBaseReq sdk cliCtx r)).ok = true →
      callValidateBasic sdk.ContentValidateBasic
        (sdk.ReadPostGovProposalReq (sdk.Codec cliCtx) r).req.Content = .returns none →
      constructed (postGovProposalHandlerFn sdk cliCtx r) = [postGovProposalMsg sdk cliCtx r] ∧
      validated (postGovProposalHandlerFn sdk cliCtx r) = [postGovProposalMsg sdk cliCtx r] ∧
      (∀ err, sdk.MsgValidateBasic (postGovProposalMsg sdk cliCtx r) = some err →
        (postGovProposalHandlerFn sdk cliCtx r).getLast? =
          some (Event.errorResponse { status := 400, text := err }) ∧
        generated (postGovProposalHandlerFn sdk cliCtx r) = []) ∧
      (sdk.MsgValidateBasic (postGovProposalMsg sdk cliCtx r) = none →
        generated (postGovProposalHandlerFn sdk cliCtx r) =
          [(postGovProposalBaseReq sdk cliCtx r, [postGovProposalMsg sdk cliCtx r])])) ∧
     (∀ (baseReq : T.BaseReq) (msgs : List (Msg T)),
      (baseReq, msgs) ∈ generated (postGovProposalHandlerFn sdk cliCtx r) →
      ∃ m : Msg T, msgs = [m] ∧ constructed (postGovProposalHandlerFn sdk cliCtx r) = [m] ∧
        validated (postGovProposalHandlerFn sdk cliCtx r) = [m] ∧
        sdk.MsgValidateBasic m = none) ∧
     (∀ (m : Msg T) (err : String), m ∈ validated (postGovProposalHandlerFn sdk cliCtx r) →
      sdk.MsgValidateBasic m = some err →
      Event.errorResponse { status := 400, text := err } ∈
        postGovProposalHandlerFn sdk cliCtx r ∧
      generated (postGovProposalHandlerFn sdk cliCtx r) = [])) := by
  refine ⟨⟨fun h1 h2 h3 h4 h5 => messageStep_postProposalHandlerFn sdk cliCtx r h1 h2 h3 h4 h5,
      fun baseReq msgs hgen => ?_,
      fun m err hm herr => validated_postProposalHandlerFn sdk cliCtx r m err hm herr⟩,
    ⟨fun h1 h2 h3 h4 => messageStep_postVoteHandlerFn sdk cliCtx r h1 h2 h3 h4,
      fun baseReq msgs hgen => ?_,
      fun m err hm herr => validated_postVoteHandlerFn sdk cliCtx r m err hm herr⟩,
    ⟨fun h1 h2 h3 => messageStep_postGovProposalHandlerFn sdk cliCtx r h1 h2 h3,
      fun baseReq msgs hgen => ?_,
      fun m err hm herr => validated_postGovProposalHandlerFn sdk cliCtx r m err hm herr⟩⟩
  · obtain ⟨hpass, _, hmsgs⟩ := mem_generated_postProposalHandlerFn sdk cliCtx r baseReq msgs hgen
    obtain ⟨h1, h2, h3, h4, h5, h6⟩ := (postProposalChecks_pass_iff sdk cliCtx r).mp hpass
    have hs := messageStep_postProposalHandlerFn sdk cliCtx r h1 h2 h3 h4 h5
    exact ⟨_, hmsgs, hs.1, hs.2.1, h6⟩
  · obtain ⟨hpass, _, hmsgs⟩ := mem_generated_postVoteHandlerFn sdk cliCtx r baseReq msgs hgen
    obtain ⟨h1, h2, h3, h4, h6⟩ := (postVoteChecks_pass_iff sdk cliCtx r).mp hpass
    have hs := messageStep_postVoteHandlerFn sdk cliCtx r h1 h2 h3 h4
    exact ⟨_, hmsgs, hs.1, hs.2.1, h6⟩
  · obtain ⟨hpass, _, hmsgs⟩ :=
      mem_generated_postGovProposalHandlerFn sdk cliCtx r baseReq msgs hgen
    obtain ⟨h3, h4, h5, h6⟩ := (postGovProposalChecks_pass_iff sdk cliCtx r).mp hpass
    have hs := messageStep_postGovProposalHandlerFn sdk cliCtx r h3 h4 h5
    exact ⟨_, hmsgs, hs.1, hs.2.1, h6⟩

/-- Witness for C4: a proposal request without proposer, a vote request
without voter and a gov request without proposer each pass the earlier
checks and build a message whose validation fails; each handler validates
that message, ends with the 400 response of the error and generates
nothing; and the well-formed proposal request generates its transaction. -/
theorem emitted_commands_are_validated_witness :
    (validated (postProposalHandlerFn exampleSDK () exampleNoProposerRequest) =
        [exampleNoProposerMsg] ∧
      (postProposalHandlerFn exampleSDK () exampleNoProposerRequest).getLast? =
        some (Event.errorResponse ⟨400, "proposer address cannot be empty"⟩) ∧
      generated (postProposalHandlerFn exampleSDK () exampleNoProposerRequest) = []) ∧
    (validated (postVoteHandlerFn exampleSDK () exampleNoVoterRequest) = [exampleNoVoterMsg] ∧
      (postVoteHandlerFn exampleSDK () exampleNoVoterRequest).getLast? =
        some (Event.errorResponse ⟨400, "voter address cannot be empty"⟩) ∧
      generated (postVoteHandlerFn exampleSDK () exampleNoVoterRequest) = []) ∧
    (validated (postGovProposalHandlerFn exampleSDK () exampleNoProposerGovRequest) =
        [exampleNoProposerGovMsg] ∧
      (postGovProposalHandlerFn exampleSDK () exampleNoProposerGovRequest).getLast? =
        some (Event.errorResponse ⟨400, "proposer address cannot be empty"⟩) ∧
      generated (postGovProposalHandlerFn exampleSDK () exampleNoProposerGovRequest) = []) ∧
    generated (postProposalHandlerFn exampleSDK () exampleProposalRequest) =
      [(exampleBaseReq, [Msg.submitProposal exampleSubmitProposal])] :=
  ⟨⟨((emitted_commands_are_validated exampleSDK () exampleNoProposerRequest).1.1
        (by decide) rfl rfl rfl rfl).2.1,
      (((emitted_commands_are_validated exampleSDK () exampleNoProposerRequest).1.1
        (by decide) rfl rfl rfl rfl).2.2.1 "proposer address cannot be empty" rfl).1,
      (((emitted_commands_are_validated exampleSDK () exampleNoProposerRequest).1.1
        (by decide) rfl rfl rfl rfl).2.2.1 "proposer address cannot be empty" rfl).2⟩,
    ⟨((emitted_commands_are_validated exampleSDK () exampleNoVoterRequest).2.1.1
        (by decide) rfl rfl rfl).2.1,
      (((emitted_commands_are_validated exampleSDK () exampleNoVoterRequest).2.1.1
        (by decide) rfl rfl rfl).2.2.1 "voter address cannot be empty" rfl).1,
      (((emitted_commands_are_validated exampleSDK () exampleNoVoterRequest).2.1.1
        (by decide) rfl rfl rfl).2.2.1 "voter address cannot be empty" rfl).2⟩,
    ⟨((emitted_commands_are_validated exampleSDK () exampleNoProposerGovRequest).2.2.1
        rfl rfl rfl).2.1,
      (((emitted_commands_are_validated exampleSDK () exampleNoProposerGovRequest).2.2.1
        rfl rfl rfl).2.2.1 "proposer address cannot be empty" rfl).1,
      (((emitted_commands_are_validated exampleSDK () exampleNoProposerGovRequest).2.2.1
        rfl rfl rfl).2.2.1 "proposer address cannot be empty" rfl).2⟩,
    ((emitted_commands_are_validated exampleSDK () exampleProposalRequest).1.1
      (by decide) rfl rfl rfl rfl).2.2.2 rfl⟩

/-- Counterexample to C5: the request whose committee-id variable is `0`
parses to the id 0, passes every check, and the handler generates a
transaction whose message carries the committee id 0. -/
theorem postProposal_committee_id_zero_is_generated :
    mapIndex exampleZeroCommitteeRequest.vars exampleSDK.RestCommitteeID = "0" ∧
    (exampleSDK.ParseUint64OrReturnBadRequest "0").n = 0 ∧
    (exampleSDK.ParseUint64OrReturnBadRequest "0").ok = true ∧
    generated (postProposalHandlerFn exampleSDK () exampleZeroCommitteeRequest) =
      [(exampleBaseReq, [Msg.submitProposal exampleZeroCommitteeProposal])] ∧
    responses (postProposalHandlerFn exampleSDK () exampleZeroCommitteeRequest) =
      [Written.stdTx] ∧
    ¬ (∀ (baseReq : ExampleBaseReq) (m : MsgSubmitProposal exampleTypes),
        (baseReq, [Msg.submitProposal m]) ∈
          generated (postProposalHandlerFn exampleSDK () exampleZeroCommitteeRequest) →
        0 < m.CommitteeID) := by
  refine ⟨rfl, rfl, rfl, rfl, rfl, fun h => ?_⟩
  have h0 := h exampleBaseReq exampleZeroCommitteeProposal
    (by
      rw [show generated (postProposalHandlerFn exampleSDK () exampleZeroCommitteeRequest) =
        [(exampleBaseReq, [Msg.submitProposal exampleZeroCommitteeProposal])] from rfl]
      exact List.mem_singleton_self _)
  exact Nat.lt_irrefl 0 h0

/-- C5 (amended): `postProposalHandlerFn` makes no positivity check on the
committee id. Every `MsgSubmitProposal` it places in a generated transaction
carries exactly the id parsed from the committee-id variable, so that id is
greater than 0 exactly when the parsed id is not 0; and a request whose
variable parses to 0 generates a transaction, whose message has the committee
id 0, whenever the body is read, the base request is valid and
`req.PubProposal.ValidateBasic()` and `msg.ValidateBasic()` return no
error. -/
theorem postProposal_committee_id_is_the_parsed_id {T : Types} (sdk : SDK T)
    (cliCtx : T.CLIContext) (r : Request T) :
    (∀ (baseReq : T.BaseReq) (m : MsgSubmitProposal T),
      (baseReq, [Msg.submitProposal m]) ∈ generated (postProposalHandlerFn sdk cliCtx r) →
      m.CommitteeID =
        (sdk.ParseUint64OrReturnBadRequest (mapIndex r.vars sdk.RestCommitteeID)).n ∧
      (0 < m.CommitteeID ↔
        (sdk.ParseUint64OrReturnBadRequest (mapIndex r.vars sdk.RestCommitteeID)).n ≠ 0)) ∧
    ((sdk.ParseUint64OrReturnBadRequest (mapIndex r.vars sdk.RestCommitteeID)).n = 0 →
      len (mapIndex r.vars sdk.RestCommitteeID) ≠ 0 →
      (sdk.ParseUint64OrReturnBadRequest (mapIndex r.vars sdk.RestCommitteeID)).ok = true →
      (sdk.ReadPostProposalReq (sdk.Codec cliCtx) r).ok = true →
      (sdk.BaseReqValidateBasic (postProposalBaseReq sdk cliCtx r)).ok = true →
      callValidateBasic sdk.PubProposalValidateBasic
        (sdk.ReadPostProposalReq (sdk.Codec cliCtx) r).req.PubProposal = .returns none →
      sdk.MsgValidateBasic (postProposalMsg sdk cliCtx r) = none →
      generated (postProposalHandlerFn sdk cliCtx r) =
        [(postProposalBaseReq sdk cliCtx r, [Msg.submitProposal (NewMsgSubmitProposal
          (sdk.ReadPostProposalReq (sdk.Codec cliCtx) r).req.PubProposal
          (sdk.ReadPostProposalReq (sdk.Codec cliCtx) r).req.Proposer 0)])]) := by
  refine ⟨fun baseReq m hgen => ?_, fun h0 h1 h2 h3 h4 h5 h6 => ?_⟩
  · obtain ⟨_, _, hmsgs⟩ :=
      mem_generated_postProposalHandlerFn sdk cliCtx r baseReq [Msg.submitProposal m] hgen
    have hm : m = NewMsgSubmitProposal
        (sdk.ReadPostProposalReq (sdk.Codec cliCtx) r).req.PubProposal
        (sdk.ReadPostProposalReq (sdk.Codec cliCtx) r).req.Proposer
        (sdk.ParseUint64OrReturnBadRequest (mapIndex r.vars sdk.RestCommitteeID)).n := by
      simpa [postProposalMsg] using hmsgs
    subst hm
    exact ⟨rfl, Nat.pos_iff_ne_zero⟩
  · have hs := (messageStep_postProposalHandlerFn sdk cliCtx r h1 h2 h3 h4 h5).2.2.2 h6
    rw [hs, postProposalMsg, h0]

/-- Witness for C5 (amended): the request naming committee 0 passes every
check and its transaction is generated from the message with committee
id 0. -/
theorem postProposal_committee_id_is_the_parsed_id_witness :
    (exampleSDK.ParseUint64OrReturnBadRequest
      (mapIndex exampleZeroCommitteeRequest.vars exampleSDK.RestCommitteeID)).n = 0 ∧
    generated (postProposalHandlerFn exampleSDK () exampleZeroCommitteeRequest) =
      [(exampleBaseReq, [Msg.submitProposal (NewMsgSubmitProposal
        (some "raise debt limit") "kava1abc" 0)])] :=
  ⟨rfl, (postProposal_committee_id_is_the_parsed_id exampleSDK ()
    exampleZeroCommitteeRequest).2 rfl (by decide) rfl rfl rfl rfl rfl⟩

/-- C8: URL parameters are validated before anything else. A request to
`postProposalHandlerFn` (respectively `postVoteHandlerFn`) whose committee-id
(respectively proposal-id) variable is absent or empty gets the 400 response
with the text `<variable name> required but not specified`, and that response
is all the handler does; and when the variable is empty or does not parse as a
uint64, the body is never read, no message is constructed and no transaction
is generated. -/
theorem url_variables_are_validated_first {T : Types} (sdk : SDK T) (cliCtx : T.CLIContext)
    (r : Request T) :
    ((mapLookup r.vars sdk.RestCommitteeID = none ∨
        mapLookup r.vars sdk.RestCommitteeID = some "") →
      postProposalHandlerFn sdk cliCtx r =
        [Event.errorResponse ⟨400, sdk.RestCommitteeID ++ " required but not specified"⟩]) ∧
    ((mapLookup r.vars sdk.RestProposalID = none ∨
        mapLookup r.vars sdk.RestProposalID = some "") →
      postVoteHandlerFn sdk cliCtx r =
        [Event.errorResponse ⟨400, sdk.RestProposalID ++ " required but not specified"⟩]) ∧
    ((mapIndex r.vars sdk.RestCommitteeID = "" ∨
        (sdk.ParseUint64OrReturnBadRequest (mapIndex r.vars sdk.RestCommitteeID)).ok = false) →
      bodyReads (postProposalHandlerFn sdk cliCtx r) = 0 ∧
      constructed (postProposalHandlerFn sdk cliCtx r) = [] ∧
      generated (postProposalHandlerFn sdk cliCtx r) = []) ∧
    ((mapIndex r.vars sdk.RestProposalID = "" ∨
        (sdk.ParseUint64OrReturnBadRequest (mapIndex r.vars sdk.RestProposalID)).ok = false) →
      bodyReads (postVoteHandlerFn sdk cliCtx r) = 0 ∧
      constructed (postVoteHandlerFn sdk cliCtx r) = [] ∧
      generated (postVoteHandlerFn sdk cliCtx r) = []) := by
  have hlen : len "" = 0 := rfl
  refine ⟨fun h => ?_, fun h => ?_, fun h => ?_, fun h => ?_⟩
  · have hidx : mapIndex r.vars sdk.RestCommitteeID = "" := by
      rcases h with h | h <;> simp [mapIndex, h]
    simp [postProposalHandlerFn, hidx, hlen, WriteErrorResponse, StatusBadRequest,
      requiredButNotSpecified]
  · have hidx : mapIndex r.vars sdk.RestProposalID = "" := by
      rcases h with h | h <;> simp [mapIndex, h]
    simp [postVoteHandlerFn, hidx, hlen, WriteErrorResponse, StatusBadRequest,
      requiredButNotSpecified]
  · rcases h with h | h
    · simp [postProposalHandlerFn, h, hlen, WriteErrorResponse, bodyReads, constructed,
        generated]
    · by_cases hvar : len (mapIndex r.vars sdk.RestCommitteeID) = 0 <;>
        simp [postProposalHandlerFn, h, hvar, WriteErrorResponse, bodyReads, constructed,
          generated]
  · rcases h with h | h
    · simp [postVoteHandlerFn, h, hlen, WriteErrorResponse, bodyReads, constructed, generated]
    · by_cases hvar : len (mapIndex r.vars sdk.RestProposalID) = 0 <;>
        simp [postVoteHandlerFn, h, hvar, WriteErrorResponse, bodyReads, constructed,
          generated]

/-- Witness for C8: a request without route variables gets the two
"required but not specified" answers, and a request whose variables are no
numbers never has its body read. -/
theorem url_variables_are_validated_first_witness :
    postProposalHandlerFn exampleSDK () exampleNoVariableRequest =
      [Event.errorResponse ⟨400, "committee-id required but not specified"⟩] ∧
    postVoteHandlerFn exampleSDK () exampleNoVariableRequest =
      [Event.errorResponse ⟨400, "proposal-id required but not specified"⟩] ∧
    (bodyReads (postProposalHandlerFn exampleSDK () exampleBadVariableRequest) = 0 ∧
      constructed (postProposalHandlerFn exampleSDK () exampleBadVariableRequest) = [] ∧
      generated (postProposalHandlerFn exampleSDK () exampleBadVariableRequest) = []) ∧
    (bodyReads (postVoteHandlerFn exampleSDK () exampleBadVariableRequest) = 0 ∧
      constructed (postVoteHandlerFn exampleSDK () exampleBadVariableRequest) = [] ∧
      generated (postVoteHandlerFn exampleSDK () exampleBadVariableRequest) = []) :=
  ⟨(url_variables_are_validated_first exampleSDK () exampleNoVariableRequest).1
      (Or.inl (by decide)),
    (url_variables_are_validated_first exampleSDK () exampleNoVariableRequest).2.1
      (Or.inl (by decide)),
    (url_variables_are_validated_first exampleSDK () exampleBadVariableRequest).2.2.1
      (Or.inr (by decide)),
    (url_variables_are_validated_first exampleSDK () exampleBadVariableRequest).2.2.2
      (Or.inr (by decide))⟩

/-- C9: `postGovProposalHandlerFn` rejects invalid content and otherwise
builds the message from the body alone. On a request whose body is read and
whose sanitized base request is valid, `req.Content.ValidateBasic()` is
called; whenever that call is made and returns an error, the handler writes a
400 response with the error's text and generates no transaction; and every
generated transaction holds exactly the one message
`govtypes.NewMsgSubmitProposal(req.Content, req.Deposit, req.Proposer)`. -/
theorem postGovProposal_rejects_invalid_content {T : Types} (sdk : SDK T)
    (cliCtx : T.CLIContext) (r : Request T) :
    ((sdk.ReadPostGovProposalReq (sdk.Codec cliCtx) r).ok = true →
      (sdk.BaseReqValidateBasic
        (sdk.Sanitize (sdk.ReadPostGovProposalReq (sdk.Codec cliCtx) r).req.BaseReq)).ok = true →
      Event.contentValidateBasic (sdk.ReadPostGovProposalReq (sdk.Codec cliCtx) r).req.Content ∈
        postGovProposalHandlerFn sdk cliCtx r) ∧
    (∀ (c : Option T.Content) (err : String),
      Event.contentValidateBasic c ∈ postGovProposalHandlerFn sdk cliCtx r →
      callValidateBasic sdk.ContentValidateBasic c = .returns (some err) →
      Event.errorResponse { status := 400, text := err } ∈
        postGovProposalHandlerFn sdk cliCtx r ∧
      generated (postGovProposalHandlerFn sdk cliCtx r) = []) ∧
    (∀ (baseReq : T.BaseReq) (msgs : List (Msg T)),
      (baseReq, msgs) ∈ generated (postGovProposalHandlerFn sdk cliCtx r) →
      msgs = [Msg.govSubmitProposal (sdk.GovNewMsgSubmitProposal
        (sdk.ReadPostGovProposalReq (sdk.Codec cliCtx) r).req.Content
        (sdk.ReadPostGovProposalReq (sdk.Codec cliCtx) r).req.Deposit
        (sdk.ReadPostGovProposalReq (sdk.Codec cliCtx) r).req.Proposer)]) := by
  refine ⟨fun hread hbase => ?_, fun c err hc herr => ?_, fun baseReq msgs hgen => ?_⟩
  · simp [postGovProposalHandlerFn, hread, hbase]
  · simp only [postGovProposalHandlerFn] at hc ⊢
    cases hread : (sdk.ReadPostGovProposalReq (sdk.Codec cliCtx) r).ok <;>
    cases hbase : (sdk.BaseReqValidateBasic
      (sdk.Sanitize (sdk.ReadPostGovProposalReq (sdk.Codec cliCtx) r).req.BaseReq)).ok <;>
    rcases hcontent : callValidateBasic sdk.ContentValidateBasic
      (sdk.ReadPostGovProposalReq (sdk.Codec cliCtx) r).req.Content with _ | (_ | cerr) <;>
    cases hmsg : sdk.MsgValidateBasic (Msg.govSubmitProposal (sdk.GovNewMsgSubmitProposal
      (sdk.ReadPostGovProposalReq (sdk.Codec cliCtx) r).req.Content
      (sdk.ReadPostGovProposalReq (sdk.Codec cliCtx) r).req.Deposit
      (sdk.ReadPostGovProposalReq (sdk.Codec cliCtx) r).req.Proposer)) <;>
    simp [hread, hbase, hcontent, hmsg, written, contentValidateBasic_not_mem_txWritten,
      WriteErrorResponse] at hc <;>
    subst hc <;>
    simp_all [generated, WriteErrorResponse, StatusBadRequest]
  · exact (mem_generated_postGovProposalHandlerFn sdk cliCtx r baseReq msgs hgen).2.2

/-- Witness for C9: a gov request whose content has a blank title is
answered with the content error and generates nothing. -/
theorem postGovProposal_rejects_invalid_content_witness :
    Event.errorResponse { status := 400, text := "proposal title cannot be blank" } ∈
      postGovProposalHandlerFn exampleSDK () exampleBlankContentGovRequest ∧
    generated (postGovProposalHandlerFn exampleSDK () exampleBlankContentGovRequest) = [] ∧
    generated (postGovProposalHandlerFn exampleSDK () exampleGovRequest) =
      [(exampleBaseReq,
        [Msg.govSubmitProposal (some "delete committee 3", "10ukava", "kava1abc")])] :=
  ⟨((postGovProposal_rejects_invalid_content exampleSDK () exampleBlankContentGovRequest).2.1
      (some "") "proposal title cannot be blank"
      ((postGovProposal_rejects_invalid_content exampleSDK ()
        exampleBlankContentGovRequest).1 rfl rfl) rfl).1,
    ((postGovProposal_rejects_invalid_content exampleSDK () exampleBlankContentGovRequest).2.1
      (some "") "proposal title cannot be blank"
      ((postGovProposal_rejects_invalid_content exampleSDK ()
        exampleBlankContentGovRequest).1 rfl rfl) rfl).2,
    rfl⟩

/-- Counterexample to C10: under an SDK whose bool-reporting helpers behave
as assumed, a proposal request (respectively gov request) whose body has no
`pub_proposal` (respectively `content`) field passes the URL, body and base
request checks and then panics in `ValidateBasic()` on the nil interface,
having written no response at all; and a proposal request that passes all
five checks is answered by an error response that comes from
`WriteGenerateStdTxResponse`, which is neither the error of a listed check
nor a generated transaction. -/
theorem handlers_do_not_always_answer_once :
    exampleSDK.WellBehaved ∧
    (postProposalHandlerFn exampleSDK () exampleNilProposalRequest =
        [Event.parseUint64 "12", Event.readRESTReq, Event.baseReqValidateBasic exampleBaseReq,
          Event.pubProposalValidateBasic none, Event.panic] ∧
      responseCount (postProposalHandlerFn exampleSDK () exampleNilProposalRequest) = 0) ∧
    (postGovProposalHandlerFn exampleSDK () exampleNilContentGovRequest =
        [Event.readRESTReq, Event.baseReqValidateBasic exampleBaseReq,
          Event.contentValidateBasic none, Event.panic] ∧
      responseCount (postGovProposalHandlerFn exampleSDK () exampleNilContentGovRequest) = 0) ∧
    (firstFailingCheck (postProposalChecks exampleSDK () exampleBadGasRequest) = none ∧
      responses (postProposalHandlerFn exampleSDK () exampleBadGasRequest) =
        [Written.response ⟨400, "invalid gas: abc"⟩]) :=
  ⟨exampleSDK_wellBehaved, ⟨rfl, rfl⟩, ⟨rfl, rfl⟩, ⟨rfl, rfl⟩⟩

/-- C10 (amended): assuming each SDK helper that reports failure through a
bool writes exactly one error response when it returns false and none when it
returns true, and `WriteGenerateStdTxResponse` writes exactly one response,
each handler answers exactly once and stops at the first failing check, on
every request whose decoded `req.PubProposal` (for `postProposalHandlerFn`)
or `req.Content` (for `postGovProposalHandlerFn`) is not nil: it writes
exactly one response, as its last step; that response is the single error
response of the first check that fails, in the order URL variable, body
parse, base request, content, message, and then `WriteGenerateStdTxResponse`
is not called; or, when no check fails, it is the one response written by
the single call of `WriteGenerateStdTxResponse` on the handler's message. -/
theorem handlers_answer_exactly_once {T : Types} (sdk : SDK T) (hsdk : sdk.WellBehaved)
    (hgen : sdk.GenerateAnswersOnce) (cliCtx : T.CLIContext) (r : Request T) :
    ((sdk.ReadPostProposalReq (sdk.Codec cliCtx) r).req.PubProposal ≠ none →
      AnswersExactlyOnce (postProposalHandlerFn sdk cliCtx r) (postProposalChecks sdk cliCtx r)
        (postProposalBaseReq sdk cliCtx r, [postProposalMsg sdk cliCtx r])
        (sdk.WriteGenerateStdTxResponse cliCtx (postProposalBaseReq sdk cliCtx r)
          [postProposalMsg sdk cliCtx r])) ∧
    AnswersExactlyOnce (postVoteHandlerFn sdk cliCtx r) (postVoteChecks sdk cliCtx r)
      (postVoteBaseReq sdk cliCtx r, [postVoteMsg sdk cliCtx r])
      (sdk.WriteGenerateStdTxResponse cliCtx (postVoteBaseReq sdk cliCtx r)
        [postVoteMsg sdk cliCtx r]) ∧
    ((sdk.ReadPostGovProposalReq (sdk.Codec cliCtx) r).req.Content ≠ none →
      AnswersExactlyOnce (postGovProposalHandlerFn sdk cliCtx r)
        (postGovProposalChecks sdk cliCtx r)
        (postGovProposalBaseReq sdk cliCtx r, [postGovProposalMsg sdk cliCtx r])
        (sdk.WriteGenerateStdTxResponse cliCtx (postGovProposalBaseReq sdk cliCtx r)
          [postGovProposalMsg sdk cliCtx r])) :=
  ⟨answersExactlyOnce_postProposalHandlerFn sdk hsdk hgen cliCtx r,
    answersExactlyOnce_postVoteHandlerFn sdk hsdk hgen cliCtx r,
    answersExactlyOnce_postGovProposalHandlerFn sdk hsdk hgen cliCtx r⟩

/-- Witness for C10 (amended): under the concrete SDK, the proposal request
whose gas setting is no number is answered once, by the response of
`WriteGenerateStdTxResponse`; the vote request whose variable is no number
is answered once, by the parse error; the well-formed gov request is
answered once, by its transaction. -/
theorem handlers_answer_exactly_once_witness :
    (responseCount (postProposalHandlerFn exampleSDK () exampleBadGasRequest) = 1 ∧
      responses (postProposalHandlerFn exampleSDK () exampleBadGasRequest) =
        [Written.response ⟨400, "invalid gas: abc"⟩]) ∧
    (responseCount (postVoteHandlerFn exampleSDK () exampleBadVariableRequest) = 1 ∧
      responses (postVoteHandlerFn exampleSDK () exampleBadVariableRequest) =
        [Written.response ⟨400, "-7 is not a valid uint64"⟩]) ∧
    (responseCount (postGovProposalHandlerFn exampleSDK () exampleGovRequest) = 1 ∧
      responses (postGovProposalHandlerFn exampleSDK () exampleGovRequest) = [Written.stdTx]) :=
  ⟨⟨((handlers_answer_exactly_once exampleSDK exampleSDK_wellBehaved
        exampleSDK_generateAnswersOnce () exampleBadGasRequest).1 (by decide)).1, rfl⟩,
    ⟨(handlers_answer_exactly_once exampleSDK exampleSDK_wellBehaved
        exampleSDK_generateAnswersOnce () exampleBadVariableRequest).2.1.1, rfl⟩,
    ⟨((handlers_answer_exactly_once exampleSDK exampleSDK_wellBehaved
        exampleSDK_generateAnswersOnce () exampleGovRequest).2.2 (by decide)).1, rfl⟩⟩

namespace Engine

/-! ## The governance engine -/

theorem executesOnce_refl (s : Store) : ExecutesOnce s [] s := by
  intro q
  simp

theorem executesOnce_trans {s t u : Store} {f g : List Nat} (h1 : ExecutesOnce s f t)
    (h2 : ExecutesOnce t g u) : ExecutesOnce s (f ++ g) u := by
  intro q
  obtain ⟨a1, b1, c1⟩ := h1 q
  obtain ⟨a2, b2, c2⟩ := h2 q
  rw [List.count_append]
  refine ⟨fun hd => ?_, ?_, fun hc => ?_⟩
  · obtain ⟨hd1, hf⟩ := a1 hd
    obtain ⟨hd2, hg⟩ := a2 hd1
    exact ⟨hd2, by omega⟩
  · by_cases hf : f.count q = 1
    · have := (a2 (c1 hf)).2
      omega
    · omega
  · by_cases hf : f.count q = 1
    · exact (a2 (c1 hf)).1
    · exact c2 (by omega)

theorem executesOnce_of_proposals_eq {s t : Store} (h : t.proposals = s.proposals) :
    ExecutesOnce s [] t := by
  intro q
  simp [Decided, h]

theorem finalize_executesOnce {s t : Store} {proposalId : Nat} {status : Status}
    (hstatus : status ≠ .Pending) (h : Finalize s proposalId status = .ok t) :
    ExecutesOnce s [proposalId] t ∧ ExecutesOnce s [] t := by
  unfold Finalize at h
  cases hp : s.proposals proposalId with
  | none => simp [hp] at h
  | some p =>
    simp only [hp] at h
    by_cases hpend : p.status = .Pending
    · simp only [hpend, if_true, Except.ok.injEq] at h
      subst h
      have hmono : ∀ q, Decided s q → q ≠ proposalId := by
        intro q ⟨p2, hq, hne⟩ heq
        subst heq
        rw [hp] at hq
        cases hq
        exact hne hpend
      have hkeep : ∀ q, Decided s q → Decided
          { s with proposals :=
            Function.update s.proposals proposalId (some { p with status := status }) } q := by
        intro q hd
        obtain ⟨p2, hq, hne⟩ := hd
        exact ⟨p2, by simp [Function.update, hmono q ⟨p2, hq, hne⟩, hq], hne⟩
      have hnew : Decided
          { s with proposals :=
            Function.update s.proposals proposalId (some { p with status := status }) }
          proposalId := ⟨{ p with status := status }, by simp, hstatus⟩
      constructor
      · intro q
        refine ⟨fun hd => ⟨hkeep q hd, ?_⟩, ?_, fun hc => ?_⟩
        · simp [List.count_singleton, Ne.symm (hmono q hd)]
        · simp [List.count_singleton]
          split <;> omega
        · by_cases hq : q = proposalId
          · subst hq
            exact hnew
          · simp [List.count_singleton, Ne.symm hq] at hc
      · intro q
        exact ⟨fun hd => ⟨hkeep q hd, by simp⟩, by simp, fun hc => by simp at hc⟩
    · simp [hpend] at h

theorem recordVote_proposals {s t : Store} {proposalId : Nat} {voter : Identity} {now : Nat}
    (h : RecordVote s proposalId voter now = .ok t) : t.proposals = s.proposals := by
  unfold RecordVote at h
  cases hp : s.proposals proposalId with
  | none => simp [hp] at h
  | some p =>
    simp only [hp] at h
    split at h
    · cases h
    · split at h
      · cases h
      · simp only [Except.ok.injEq] at h
        subst h
        rfl

theorem castVote_executesOnce {s t : Store} {proposalId : Nat} {voter : Identity}
    {now : Nat} {fired : List Nat} (h : CastVote s proposalId voter now = .ok (t, fired)) :
    ExecutesOnce s fired t := by
  unfold CastVote at h
  cases hp : s.proposals proposalId with
  | none => simp [hp] at h
  | some p =>
    simp only [hp] at h
    split at h
    · cases h
    · split at h
      · cases h
      · cases hr : RecordVote s proposalId voter now with
        | error e => simp [hr] at h
        | ok s1 =>
          have h1 := executesOnce_of_proposals_eq (recordVote_proposals hr)
          simp only [hr] at h
          split at h
          · cases hf : Finalize s1 proposalId .Passed with
            | error e => simp [hf] at h
            | ok s2 =>
              simp only [hf, Except.ok.injEq, Prod.mk.injEq] at h
              obtain ⟨hs, hfired⟩ := h
              subst hs hfired
              simpa using executesOnce_trans h1 (finalize_executesOnce (by decide) hf).1
          · simp only [Except.ok.injEq, Prod.mk.injEq] at h
            obtain ⟨hs, hfired⟩ := h
            subst hs hfired
            exact h1

theorem sweepOne_executesOnce (now : Nat) (acc : Store × List Nat) (entry : Nat × Proposal) :
    ∃ fired, (sweepOne now acc entry).2 = acc.2 ++ fired ∧
      ExecutesOnce acc.1 fired (sweepOne now acc entry).1 := by
  unfold sweepOne
  split
  · split
    · cases hf : Finalize acc.1 entry.1 .Passed with
      | error e => exact ⟨[], by simp, executesOnce_refl _⟩
      | ok s1 => exact ⟨[entry.1], by simp, (finalize_executesOnce (by decide) hf).1⟩
    · cases hf : Finalize acc.1 entry.1 .Failed with
      | error e => exact ⟨[], by simp, executesOnce_refl _⟩
      | ok s1 => exact ⟨[], by simp, (finalize_executesOnce (by decide) hf).2⟩
  · exact ⟨[], by simp, executesOnce_refl _⟩

theorem foldl_sweepOne_executesOnce (now : Nat) (entries : List (Nat × Proposal))
    (acc : Store × List Nat) :
    ∃ fired, (entries.foldl (sweepOne now) acc).2 = acc.2 ++ fired ∧
      ExecutesOnce acc.1 fired (entries.foldl (sweepOne now) acc).1 := by
  induction entries generalizing acc with
  | nil => exact ⟨[], by simp, executesOnce_refl _⟩
  | cons e es ih =>
    obtain ⟨f1, hf1, h1⟩ := sweepOne_executesOnce now acc e
    obtain ⟨f2, hf2, h2⟩ := ih (sweepOne now acc e)
    refine ⟨f1 ++ f2, ?_, ?_⟩
    · rw [List.foldl_cons, hf2, hf1, List.append_assoc]
    · rw [List.foldl_cons]
      exact executesOnce_trans h1 h2

theorem sweep_executesOnce (s : Store) (now : Nat) :
    ExecutesOnce s (Sweep s now).2 (Sweep s now).1 := by
  obtain ⟨fired, hfired, h⟩ := foldl_sweepOne_executesOnce now (ListPending s) (s, [])
  unfold Sweep
  rw [hfired]
  simpa using h

theorem step_executesOnce (s : Store) (c : Call) :
    ExecutesOnce s (step s c).2 (step s c).1 := by
  cases c with
  | CastVote proposalId voter now =>
    simp only [step]
    cases h : CastVote s proposalId voter now with
    | error e => exact executesOnce_refl s
    | ok res =>
      obtain ⟨t, fired⟩ := res
      exact castVote_executesOnce h
  | Sweep now => exact sweep_executesOnce s now

theorem run_executesOnce (s : Store) (calls : List Call) :
    ExecutesOnce s (run s calls).2 (run s calls).1 := by
  induction calls generalizing s with
  | nil => exact executesOnce_refl s
  | cons c cs ih =>
    unfold run
    exact executesOnce_trans (step_executesOnce s c) (ih (step s c).1)

/-- The first scenario of section 8: with votes of A and B the proposal
passes and the callback fires once, whatever is voted or swept later. -/
theorem scenario_majority_executes :
    (run (scenarioStore .SimpleMajority) [.CastVote 1 "A" 1]).2 = [] ∧
    (run (scenarioStore .SimpleMajority) [.CastVote 1 "A" 1, .CastVote 1 "B" 2]).2 = [1] ∧
    (run (scenarioStore .SimpleMajority)
      [.CastVote 1 "A" 1, .CastVote 1 "B" 2, .CastVote 1 "C" 3, .Sweep 200]).2 = [1] := by
  decide

/-- The second scenario of section 8: under `EveryoneMustAgree`, with votes
of A and B only, the sweep after the deadline fails the proposal and no
callback fires, also not for a late vote of C. -/
theorem scenario_everyone_must_agree_fails :
    (run (scenarioStore .EveryoneMustAgree)
      [.CastVote 1 "A" 1, .CastVote 1 "B" 2, .Sweep 200, .CastVote 1 "C" 201]).2 = [] ∧
    ((run (scenarioStore .EveryoneMustAgree)
      [.CastVote 1 "A" 1, .CastVote 1 "B" 2, .Sweep 200]).1.proposals 1).map
        (fun p => p.status) = some .Failed := by
  decide

/-- C6: the majority threshold. For a `SimpleMajority` committee with N ≥ 1
members and any vote count k, the tally is Passed if and only if
k ≥ floor(N/2) + 1; N/2 votes on an even-sized committee do not pass, and a
single-member committee passes on its first vote. -/
theorem simpleMajority_passes_iff_threshold (c : Committee) (k : Nat)
    (hrule : c.tallyRule = .SimpleMajority) (_hmembers : 1 ≤ c.members.length) :
    (Evaluate c k = .Passed ↔ k ≥ c.members.length / 2 + 1) ∧
    (c.members.length % 2 = 0 → Evaluate c (c.members.length / 2) ≠ .Passed) ∧
    (c.members.length = 1 → Evaluate c 1 = .Passed) := by
  have hiff : ∀ j, Evaluate c j = .Passed ↔ j ≥ c.members.length / 2 + 1 := by
    intro j
    unfold Evaluate
    rw [hrule]
    by_cases hj : j > c.members.length / 2
    · simp [hj]
      omega
    · simp [hj]
      omega
  refine ⟨hiff k, fun _ => ?_, fun h1 => ?_⟩
  · rw [Ne, hiff]
    omega
  · rw [hiff, h1]

/-- Witness for C6: in the three-member committee of the scenario, one vote
is Pending and two votes pass. -/
theorem simpleMajority_passes_iff_threshold_witness :
    Evaluate (scenarioCommittee .SimpleMajority) 1 = .Pending ∧
    (Evaluate (scenarioCommittee .SimpleMajority) 2 = .Passed ↔ 2 ≥ 3 / 2 + 1) :=
  ⟨by decide, (simpleMajority_passes_iff_threshold (scenarioCommittee .SimpleMajority) 2
    rfl (by decide)).1⟩

/-- C7: exactly-once execution. From any store, over any finite sequence of
`CastVote` and `Sweep` calls, the execution callback is invoked at most once
for any proposal id. -/
theorem execution_callback_at_most_once (s : Store) (calls : List Call) (proposalId : Nat) :
    (run s calls).2.count proposalId ≤ 1 :=
  (run_executesOnce s calls proposalId).2.1

end Engine

end Kava
